import Mathlib

/-
Shallow embedding of the Android unlock pattern calculator (src/main.c).

Machine integers are modelled as Nat (point ids, indices, character codes)
and Int (blocking-matrix entries, which include the sentinel -1).  C arrays
are modelled as Lists threaded explicitly through the recursion; the static
array `node_ids` of `add_subnodes` and the static accumulator `branch` of
`subtree_to_file` are passed in and returned, so that the carried-over state
between top-level calls is visible in the model.
-/

def MAX_POINTS : Nat := 9

/-- Matrix describing which transition is blocked by which node
(src/main.c lines 76-88). -/
def pattern_block_matrix : List (List Int) :=
  [[0, 0, 0, 0, 0, 0, 0, 0, 0, 0],
   [0, 0, 0, 2, 0, 0, 0, 4, 0, 5],
   [0, 0, 0, 0, 0, 0, 0, 0, 5, 0],
   [0, 2, 0, 0, 0, 0, 0, 5, 0, 6],
   [0, 0, 0, 0, 0, 0, 5, 0, 0, 0],
   [0, 0, 0, 0, 0, 0, 0, 0, 0, 0],
   [0, 0, 0, 0, 5, 0, 0, 0, 0, 0],
   [0, 4, 0, 5, 0, 0, 0, 0, 0, 8],
   [0, 0, 5, 0, 0, 0, 0, 0, 0, 0],
   [0, 5, 0, 6, 0, 0, 0, 8, 0, 0]]

/-- Read entry (r, c) of a 10x10 blocking matrix (`block_matrix[r][c]`). -/
def mget (M : List (List Int)) (r c : Nat) : Int :=
  (M.getD r []).getD c 0

/-- Node of the pattern tree (`struct tree_node`, src/main.c lines 68-73).
The parent back-reference is non-owning and only used for traversal in the
source; it is not part of the value.  `child_count` is the length of the
children list. -/
inductive TreeNode : Type where
  | node (id : Nat) (child_nodes : List TreeNode) : TreeNode

def TreeNode.id : TreeNode → Nat
  | .node i _ => i

def TreeNode.child_nodes : TreeNode → List TreeNode
  | .node _ cs => cs

def TreeNode.child_count (t : TreeNode) : Nat :=
  t.child_nodes.length

/-- Scan `branch_ids[0 .. level)` for a blocker id, as the loop at
src/main.c lines 363-367 does. -/
def blocker_on_branch (blocker : Int) : List Nat → Nat → Bool
  | _, 0 => false
  | [], _ + 1 => false
  | x :: xs, l + 1 => blocker == (x : Int) || blocker_on_branch blocker xs l

/-- Decide whether parent -> child is an illegal transition on the current
branch (src/main.c lines 343-370).  Returns true when illegal. -/
def illegal_transition (parent_id child_id : Nat) (branch_ids : List Nat)
    (level : Nat) (block_matrix : List (List Int)) : Bool :=
  let blocker := mget block_matrix parent_id child_id
  if blocker == 0 then false
  else if blocker == -1 then true
  else !(blocker_on_branch blocker branch_ids level)

/-- Scan `node_ids[0 .. level)` for the candidate id, as the loop at
src/main.c lines 278-283 does. -/
def id_on_branch (i : Nat) : List Nat → Nat → Bool
  | _, 0 => false
  | [], _ + 1 => false
  | x :: xs, l + 1 => i == x || id_on_branch i xs l

/-- Candidate ids tried by the loop `for (i = 1; i <= MAX_POINTS; i++)`. -/
def candidate_ids : List Nat := [1, 2, 3, 4, 5, 6, 7, 8, 9]

/-- The candidate loop of `add_subnodes` (src/main.c lines 274-308), over the
remaining candidates `cands`.  `go i level node_ids` stands for the recursive
call `add_subnodes(child, level, block_matrix)` one level further down; it is
passed as an argument so that both functions are structurally recursive. -/
def add_subnodes_loop (go : Nat → Nat → List Nat → List TreeNode × List Nat)
    (parent_id level : Nat) (block_matrix : List (List Int))
    (cands : List Nat) (node_ids : List Nat) :
    List TreeNode × List Nat :=
  match cands with
  | [] => ([], node_ids)
  | i :: rest =>
    if id_on_branch i node_ids level
        || illegal_transition parent_id i node_ids level block_matrix then
      add_subnodes_loop go parent_id level block_matrix rest node_ids
    else
      let r := go i (level + 1) (node_ids.set level i)
      let r2 := add_subnodes_loop go parent_id level block_matrix rest
        (r.2.set level 0)
      (TreeNode.node i r.1 :: r2.1, r2.2)

/-- Build the list of subnodes of a parent with id `parent_id` at `level`
(src/main.c lines 268-311).  `node_ids` is the static branch-tracking array
(9 slots, zero-initialised at program start); it is threaded through and
returned.  `fuel` bounds the recursion depth; the source recursion never
goes below level 9, so fuel 10 at the root is never exhausted. -/
def add_subnodes : Nat → Nat → Nat → List (List Int) → List Nat →
    List TreeNode × List Nat
  | 0, _, _, _, node_ids => ([], node_ids)
  | fuel + 1, parent_id, level, block_matrix, node_ids =>
    add_subnodes_loop (fun i lvl s => add_subnodes fuel i lvl block_matrix s)
      parent_id level block_matrix candidate_ids node_ids

/-- The zero-initialised static array `node_ids` (9 ints). -/
def node_ids0 : List Nat := List.replicate MAX_POINTS 0

/-- The tree built by main: a virtual root with id 0 whose subnodes are
computed by `add_subnodes(root, 0, block_matrix)` (src/main.c lines 166-172),
starting from the zero-initialised static branch array. -/
def pattern_root (block_matrix : List (List Int)) : TreeNode :=
  TreeNode.node 0 (add_subnodes 10 0 0 block_matrix node_ids0).1

mutual

/-- Count nodes per level (src/main.c lines 379-391): for each child,
`pattern_count[level]` is incremented and the child is recursed into at
`level + 1`. -/
def count_valid_patterns : TreeNode → List Nat → Nat → List Nat
  | .node _ cs, pattern_count, level => count_patterns_loop cs pattern_count level

/-- The child loop of `count_valid_patterns`. -/
def count_patterns_loop : List TreeNode → List Nat → Nat → List Nat
  | [], pattern_count, _ => pattern_count
  | c :: rest, pattern_count, level =>
    count_patterns_loop rest
      (count_valid_patterns c
        (pattern_count.set level (pattern_count.getD level 0 + 1)) (level + 1))
      level

end

/-- Per-length pattern counts as computed by `print_summary`
(src/main.c lines 424-450): slot k holds the number of patterns of
length k+1. -/
def count_by_length (root : TreeNode) : List Nat :=
  count_valid_patterns root (List.replicate MAX_POINTS 0) 0

mutual

/-- Print the (sub)patterns under a node (src/main.c lines 396-417).
`branch` is the static decimal accumulator; it is threaded through and
returned together with the list of printed integers.  At the root call the
accumulator is 0 and `if (branch == 0) branch = node->id` keeps it 0 since
the root id is 0. -/
def subtree_to_file : TreeNode → Nat → List Nat × Nat
  | .node nid cs, branch0 =>
    let branch := if branch0 == 0 then nid else branch0
    let r := stf_loop cs branch
    (cs.map (fun c => branch * 10 + c.id) ++ r.1, r.2)

/-- The second loop of `subtree_to_file` (src/main.c lines 410-414):
descend into each child with `branch = branch*10 + id`, restore with
`branch = branch / 10` afterwards. -/
def stf_loop : List TreeNode → Nat → List Nat × Nat
  | [], branch => ([], branch)
  | c :: rest, branch =>
    let r := subtree_to_file c (branch * 10 + c.id)
    let r2 := stf_loop rest (r.2 / 10)
    (r.1 ++ r2.1, r2.2)

end

/-- Write entry (r, c) of a 10x10 matrix. -/
def mset (M : List (List Int)) (r c : Nat) (v : Int) : List (List Int) :=
  M.set r ((M.getD r []).set c v)

/-- The digit-parsing loop of `fill_guess_matrix` (src/main.c lines 504-510):
`j = nodelist[i] - '0'; if (0 <= j && j <= MAX_POINTS) nodes[j] = j;`.
The characters of the node list are modelled by their integer codes.
The C source declares `int nodes[MAX_POINTS]` (9 slots) but both this loop
and the copy loop index slots 0..9; the model uses the 10 slots the loops
assume. -/
def parse_nodes : List Nat → List Nat → List Nat
  | [], nodes => nodes
  | c :: rest, nodes =>
    let j : Int := (c : Int) - 48
    if 0 ≤ j ∧ j ≤ 9 then parse_nodes rest (nodes.set j.toNat j.toNat)
    else parse_nodes rest nodes

/-- Build the restricted transition matrix for guess mode
(src/main.c lines 491-523): initialise every entry to -1 (disabled), parse
the node list, then copy `pattern_block_matrix[nodes[i]][nodes[j]]` back in
for all slot pairs. -/
def fill_guess_matrix (nodelist : List Nat) : List (List Int) :=
  let init : List (List Int) := List.replicate 10 (List.replicate 10 (-1))
  let nodes := parse_nodes nodelist (List.replicate 10 0)
  (List.range 10).foldl
    (fun M i =>
      (List.range 10).foldl
        (fun M2 j =>
          mset M2 (nodes.getD i 0) (nodes.getD j 0)
            (mget pattern_block_matrix (nodes.getD i 0) (nodes.getD j 0)))
        M)
    init

/-- One random-pattern trial of `print_random_patterns` (src/main.c lines
471-479): starting at `root`, `len` times pick child number
`rand % child_count` and emit its id.  `rands` supplies the successive
`rand()` values; the result is `none` when a node with zero children is hit
before `len` points were emitted (there the C code would compute
`rand() % 0`). -/
def pattern_walk : TreeNode → Nat → List Nat → Option (List Nat)
  | _, 0, _ => some []
  | t, len + 1, rands =>
    match t.child_nodes with
    | [] => none
    | c0 :: cs =>
      let dot := rands.headD 0 % (c0 :: cs).length
      let c := (c0 :: cs).getD dot (TreeNode.node 0 [])
      match pattern_walk c len rands.tail with
      | none => none
      | some rest => some (c.id :: rest)

/-- The length check of `print_random_patterns` (src/main.c lines 464-466):
a diagnostic is printed when the requested length is outside [4, 9].  The
function then proceeds to the generation loop regardless. -/
def random_patterns_warned (len : Nat) : Bool :=
  decide (len < 4) || decide (9 < len)

/-- Model of `print_random_patterns` (src/main.c lines 458-483): whether the
invalid-length diagnostic fires, paired with the ten emitted patterns, one
per trial (`rands` provides each trial's stream of `rand()` values). -/
def print_random_patterns (root : TreeNode) (len : Nat)
    (rands : List (List Nat)) : Bool × List (Option (List Nat)) :=
  (random_patterns_warned len, rands.map (fun r => pattern_walk root len r))

/-! Spec-side definitions, written from the specification's words, for the
claims that compare the code against an independent description. -/

/-- Row of a point on the 3x3 grid (spec section 3: point 1 is top-left,
point 9 bottom-right). -/
def grid_row (p : Nat) : Nat := (p - 1) / 3

/-- Column of a point on the 3x3 grid. -/
def grid_col (p : Nat) : Nat := (p - 1) % 3

/-- Modelled from the spec: "P blocks A->B iff P lies exactly on the
midpoint of the line segment A-B"; the blocker entry is that midpoint when
it is a grid point, and NONE (0) otherwise. -/
def midpoint_blocker (a b : Nat) : Int :=
  if (grid_row a + grid_row b) % 2 = 0 ∧ (grid_col a + grid_col b) % 2 = 0 then
    Int.ofNat (((grid_row a + grid_row b) / 2) * 3 + (grid_col a + grid_col b) / 2 + 1)
  else 0

mutual

/-- Modelled from the spec (serialize_patterns): every root-to-node path of
length >= 1 as its decimal concatenation, in depth-first, ascending-child
order: each child's line immediately precedes the lines of its own subtree. -/
def dfs_lines : Nat → TreeNode → List Nat
  | pfx, .node _ cs => dfs_lines_loop pfx cs

/-- Depth-first line order, forest version. -/
def dfs_lines_loop : Nat → List TreeNode → List Nat
  | _, [] => []
  | pfx, c :: rest =>
    (pfx * 10 + c.id) :: (dfs_lines (pfx * 10 + c.id) c ++ dfs_lines_loop pfx rest)

end

mutual

/-- The line order the code actually produces: at every node, first one
line per child, then the lines of each child's subtree in ascending-child
order. -/
def batch_lines : Nat → TreeNode → List Nat
  | pfx, .node _ cs => cs.map (fun c => pfx * 10 + c.id) ++ batch_lines_loop pfx cs

/-- Sibling loop of `batch_lines`. -/
def batch_lines_loop : Nat → List TreeNode → List Nat
  | _, [] => []
  | pfx, c :: rest => batch_lines (pfx * 10 + c.id) c ++ batch_lines_loop pfx rest

end

mutual

/-- All ids below a node are points in [1, 9]. -/
def ids_ok : TreeNode → Bool
  | .node _ cs => ids_ok_loop cs

/-- Forest version of `ids_ok`. -/
def ids_ok_loop : List TreeNode → Bool
  | [] => true
  | c :: rest =>
    (decide (1 ≤ c.id) && decide (c.id ≤ 9)) && ids_ok c && ids_ok_loop rest

end

mutual

/-- All root-to-node paths of a tree, as the lists of point ids visited
(the virtual root is not part of a path). -/
def nodePaths : TreeNode → List (List Nat)
  | .node _ cs => forestPaths cs

/-- All paths into a forest of subtrees. -/
def forestPaths : List TreeNode → List (List Nat)
  | [] => []
  | c :: rest =>
    ([c.id] :: (nodePaths c).map (fun p => c.id :: p)) ++ forestPaths rest

end

/-- The canonical node-list (character codes of the digits, ascending) of
the set of digits selected by the low ten bits of `mask`. -/
def mask_nodelist (mask : Nat) : List Nat :=
  ((List.range 10).filter (fun k => mask.testBit k)).map (fun k => 48 + k)

/-- Modelled from the spec (derive_restricted): DISABLED unless both
endpoints are selected, in which case the base entry -- except that the
code also keeps every pair whose endpoints are selected-or-0, because the
unused slots of its `nodes[]` array stay 0.  `zero_free` tells whether id 0
counts as selected. -/
def restricted_table_spec (mask : Nat) (zero_free : Bool) : List (List Int) :=
  (List.range 10).map (fun a =>
    (List.range 10).map (fun b =>
      if ((zero_free && a == 0) || mask.testBit a)
          && ((zero_free && b == 0) || mask.testBit b) then
        mget pattern_block_matrix a b
      else -1))

/-! A verified fast evaluation path for the per-length pattern counts.
The faithful embedding above is far too expensive to evaluate inside the
proof kernel on the full 389497-node tree, so the counts are established
through a memoised dynamic program over (visited-set, current-point)
states, connected to the tree construction by the theorems further below. -/

/-- Elementwise sum of two count vectors (the shorter one padded with 0). -/
def vadd : List Nat → List Nat → List Nat
  | [], b => b
  | a, [] => a
  | x :: xs, y :: ys => (x + y) :: vadd xs ys

mutual

/-- Count vector of a subtree: entry d is the number of descendants of the
node at relative depth d+1 below it. -/
def cv : TreeNode → List Nat
  | .node _ cs => cvF cs

/-- Count vector of a forest, each listed tree taken at relative depth 1. -/
def cvF : List TreeNode → List Nat
  | [] => []
  | c :: rest => vadd (1 :: cv c) (cvF rest)

end

/-- Base-16 encoding of a blocking matrix into one number: the digit at
position `r*10 + c` is entry (r, c); full-matrix entries are 0..9. -/
def encode_tbl (M : List (List Int)) : Nat :=
  (List.range 100).foldl
    (fun acc k => acc + (mget M (k / 10) (k % 10)).toNat * 16 ^ k) 0

/-- The encoded unrestricted blocking matrix. -/
def tblN : Nat := encode_tbl pattern_block_matrix

/-- Read entry (p, i) of an encoded blocking matrix. -/
def tbl_at (tbl p i : Nat) : Nat := tbl / 16 ^ (p * 10 + i) % 16

/-- Mask form of the transition-legality test for an encoded full matrix:
illegal when a blocking point exists and is not yet visited. -/
def fast_illegal (tbl p i mask : Nat) : Bool :=
  !(tbl_at tbl p i == 0) && !(mask.testBit (tbl_at tbl p i))

/-- Mask form of the candidate loop of `add_subnodes`, computing the count
vector of the forest it would build: `go i mask` stands for the count vector
of the subtree rooted at point i with visited-set `mask`. -/
def fc_loop (go : Nat → Nat → List Nat) (tbl p mask : Nat) :
    List Nat → List Nat
  | [] => []
  | i :: rest =>
    if mask.testBit i || fast_illegal tbl p i mask then
      fc_loop go tbl p mask rest
    else
      vadd (1 :: go i (mask ||| 1 <<< i)) (fc_loop go tbl p mask rest)

/-- Mask form of the subtree count vectors: the count vector of the subtree
that `add_subnodes fuel` builds below current point `p` with visited-set
`mask`. -/
def fast_counts (tbl : Nat) : Nat → Nat → Nat → List Nat
  | 0, _, _ => []
  | fuel + 1, p, mask => fc_loop (fast_counts tbl fuel) tbl p mask candidate_ids

/-- Bitmask of a list of point ids. -/
def mask_of : List Nat → Nat
  | [] => 0
  | x :: xs => (1 <<< x) ||| mask_of xs

/-- Number of candidate points already set in a mask. -/
def bitsOn (mask : Nat) : Nat :=
  (candidate_ids.filter (fun i => mask.testBit i)).length

/-- One trie level: pick the half selected by the low bit of `b`. -/
def pick2 {α : Type} (p : α × α) (b : Nat) : α :=
  cond (Nat.beq (b % 2) 0) p.1 p.2

/-- Leaves of the count-vector trie: the ten per-point count vectors of one
visited-set mask. -/
def T0 : Type := List (List Nat)

/-- Trie levels 1..9 as nested pairs. -/
def T1 : Type := T0 × T0

def T2 : Type := T1 × T1

def T3 : Type := T2 × T2

def T4 : Type := T3 × T3

def T5 : Type := T4 × T4

def T6 : Type := T5 × T5

def T7 : Type := T6 × T6

def T8 : Type := T7 × T7

def T9 : Type := T8 × T8

/-- Walk the depth-9 trie along the binary digits of `m` (low bit first). -/
def ct_find (t : T9) (m : Nat) : T0 :=
  pick2 (pick2 (pick2 (pick2 (pick2 (pick2 (pick2 (pick2 (pick2 t m)
    (m / 2)) (m / 4)) (m / 8)) (m / 16)) (m / 32)) (m / 64)) (m / 128))
    (m / 256)

/-- Table entry for visited-set `mask` (bit 0 unused) and current point
`p`. -/
def lookupV (t : T9) (mask p : Nat) : List Nat :=
  (ct_find t (mask / 2)).getD p []
/-- Memoised per-state count vectors: for every visited-set mask (bit 0 unused) and current point, the count vector of the corresponding subtree; entries for unreachable states are empty.  The values are certified by the fixpoint check below, not trusted. -/
def pattern_count_table : T9 :=
  (((((((((([[9,56,320,1624,7152,26016,72912,140704,140704],[],[],[],[],[],[],[],[],[]] : T0), ([[],[],[],[],[],[],[],[],[],[5,31,154,684,2516,7104,13792,13792]] : T0)), (([[],[],[],[],[],[],[],[],[7,37,188,816,2926,8118,15564,15564],[]] : T0), ([[],[],[],[],[],[],[],[],[6,28,120,432,1194,2292,2292],[5,26,108,384,1056,2016,2016]] : T0))), ((([[],[],[],[],[],[],[],[5,31,154,684,2516,7104,13792,13792],[],[]] : T0), ([[],[],[],[],[],[],[],[5,26,114,420,1204,2352,2352],[],[5,26,114,420,1204,2352,2352]] : T0)), (([[],[],[],[],[],[],[],[5,26,108,384,1056,2016,2016],[6,28,120,432,1194,2292,2292],[]] : T0), ([[],[],[],[],[],[],[],[4,18,64,180,348,348],[5,21,74,210,408,408],[4,18,64,180,348,348]] : T0)))), (((([[],[],[],[],[],[],[7,37,188,816,2926,8118,15564,15564],[],[],[]] : T0), ([[],[],[],[],[],[],[6,28,120,432,1194,2292,2292],[],[],[5,26,108,384,1056,2016,2016]] : T0)), (([[],[],[],[],[],[],[6,28,124,438,1196,2268,2268],[],[6,28,124,438,1196,2268,2268],[]] : T0), ([[],[],[],[],[],[],[5,19,68,180,332,332],[],[5,19,68,180,332,332],[5,21,72,190,348,348]] : T0))), ((([[],[],[],[],[],[],[6,30,134,496,1414,2764,2764],[4,22,96,350,990,1924,1924],[],[]] : T0), ([[],[],[],[],[],[],[5,21,76,216,420,420],[4,18,64,176,340,340],[],[5,22,78,216,418,418]] : T0)), (([[],[],[],[],[],[],[5,21,78,218,420,420],[4,19,67,183,346,346],[5,21,76,210,400,400],[]] : T0), ([[],[],[],[],[],[],[4,14,40,78,78],[3,12,32,60,60],[4,14,38,72,72],[4,15,41,78,78]] : T0))))), ((((([[],[],[],[],[],[8,48,256,1152,4248,12024,23280,23280],[],[],[],[]] : T0), ([[],[],[],[],[],[7,38,176,660,1888,3680,3680],[],[],[],[5,28,128,480,1372,2672,2672]] : T0)), (([[],[],[],[],[],[7,36,160,582,1634,3148,3148],[],[],[7,36,160,582,1634,3148,3148],[]] : T0), ([[],[],[],[],[],[6,26,94,260,496,496],[],[],[6,26,94,260,496,496],[5,22,79,219,418,418]] : T0))), ((([[],[],[],[],[],[7,38,176,660,1888,3680,3680],[],[5,28,128,480,1372,2672,2672],[],[]] : T0), ([[],[],[],[],[],[6,28,106,306,600,600],[],[5,24,90,258,504,504],[],[5,24,90,258,504,504]] : T0)), (([[],[],[],[],[],[6,26,94,260,496,496],[],[5,22,79,219,418,418],[6,26,94,260,496,496],[]] : T0), ([[],[],[],[],[],[5,18,50,96,96],[],[4,15,41,78,78],[5,18,50,96,96],[4,15,41,78,78]] : T0)))), (((([[],[],[],[],[],[7,36,160,582,1634,3148,3148],[7,36,160,582,1634,3148,3148],[],[],[]] : T0), ([[],[],[],[],[],[6,26,94,260,496,496],[6,26,94,260,496,496],[],[],[5,22,79,219,418,418]] : T0)), (([[],[],[],[],[],[6,26,94,260,496,496],[6,26,94,260,496,496],[],[6,26,94,260,496,496],[]] : T0), ([[],[],[],[],[],[5,16,42,76,76],[5,16,42,76,76],[],[5,16,42,76,76],[5,16,42,76,76]] : T0))), ((([[],[],[],[],[],[6,28,106,306,600,600],[6,28,106,306,600,600],[4,19,72,208,408,408],[],[]] : T0), ([[],[],[],[],[],[5,18,50,96,96],[5,18,50,96,96],[4,15,41,78,78],[],[5,18,50,96,96]] : T0)), (([[],[],[],[],[],[5,18,50,96,96],[5,18,50,96,96],[4,15,41,78,78],[5,18,50,96,96],[]] : T0), ([[],[],[],[],[],[4,10,18,18],[4,10,18,18],[3,8,14,14],[4,10,18,18],[4,10,18,18]] : T0)))))), (((((([[],[],[],[],[7,37,188,816,2926,8118,15564,15564],[],[],[],[],[]] : T0), ([[],[],[],[],[6,30,134,496,1414,2764,2764],[],[],[],[],[4,22,96,350,990,1924,1924]] : T0)), (([[],[],[],[],[6,28,124,438,1196,2268,2268],[],[],[],[6,28,124,438,1196,2268,2268],[]] : T0), ([[],[],[],[],[5,21,78,218,420,420],[],[],[],[5,21,76,210,400,400],[4,19,67,183,346,346]] : T0))), ((([[],[],[],[],[6,28,120,432,1194,2292,2292],[],[],[5,26,108,384,1056,2016,2016],[],[]] : T0), ([[],[],[],[],[5,21,76,216,420,420],[],[],[5,22,78,216,418,418],[],[4,18,64,176,340,340]] : T0)), (([[],[],[],[],[5,19,68,180,332,332],[],[],[5,21,72,190,348,348],[5,19,68,180,332,332],[]] : T0), ([[],[],[],[],[4,14,40,78,78],[],[],[4,15,41,78,78],[4,14,38,72,72],[3,12,32,60,60]] : T0)))), (((([[],[],[],[],[7,32,128,440,1228,2352,2352],[],[7,32,128,440,1228,2352,2352],[],[],[]] : T0), ([[],[],[],[],[6,24,80,218,420,420],[],[6,24,80,218,420,420],[],[],[4,16,54,152,292,292]] : T0)), (([[],[],[],[],[6,24,82,220,420,420],[],[6,24,82,220,420,420],[],[5,19,66,180,340,340],[]] : T0), ([[],[],[],[],[5,16,42,76,76],[],[5,16,42,76,76],[],[4,12,32,58,58],[4,13,34,62,62]] : T0))), ((([[],[],[],[],[6,24,80,218,420,420],[],[6,24,80,218,420,420],[4,16,54,152,292,292],[],[]] : T0), ([[],[],[],[],[5,16,40,76,76],[],[5,16,40,76,76],[4,13,33,62,62],[],[4,13,33,62,62]] : T0)), (([[],[],[],[],[5,16,42,76,76],[],[5,16,42,76,76],[4,13,34,62,62],[4,12,32,58,58],[]] : T0), ([[],[],[],[],[4,10,18,18],[],[4,10,18,18],[3,8,14,14],[3,7,12,12],[3,8,14,14]] : T0))))), ((((([[],[],[],[],[7,36,160,582,1634,3148,3148],[7,36,160,582,1634,3148,3148],[],[],[],[]] : T0), ([[],[],[],[],[6,28,106,306,600,600],[6,28,106,306,600,600],[],[],[],[4,19,72,208,408,408]] : T0)), (([[],[],[],[],[6,26,94,260,496,496],[6,26,94,260,496,496],[],[],[6,26,94,260,496,496],[]] : T0), ([[],[],[],[],[5,18,50,96,96],[5,18,50,96,96],[],[],[5,18,50,96,96],[4,15,41,78,78]] : T0))), ((([[],[],[],[],[6,26,94,260,496,496],[6,26,94,260,496,496],[],[5,22,79,219,418,418],[],[]] : T0), ([[],[],[],[],[5,18,50,96,96],[5,18,50,96,96],[],[5,18,50,96,96],[],[4,15,41,78,78]] : T0)), (([[],[],[],[],[5,16,42,76,76],[5,16,42,76,76],[],[5,16,42,76,76],[5,16,42,76,76],[]] : T0), ([[],[],[],[],[4,10,18,18],[4,10,18,18],[],[4,10,18,18],[4,10,18,18],[3,8,14,14]] : T0)))), (((([[],[],[],[],[6,26,92,260,504,504],[6,26,92,260,504,504],[6,26,92,260,504,504],[],[],[]] : T0), ([[],[],[],[],[5,18,50,96,96],[5,18,50,96,96],[5,18,50,96,96],[],[],[4,14,40,78,78]] : T0)), (([[],[],[],[],[5,18,50,96,96],[5,18,50,96,96],[5,18,50,96,96],[],[5,18,50,96,96],[]] : T0), ([[],[],[],[],[4,10,18,18],[4,10,18,18],[4,10,18,18],[],[4,10,18,18],[4,10,18,18]] : T0))), ((([[],[],[],[],[5,18,50,96,96],[5,18,50,96,96],[5,18,50,96,96],[4,14,40,78,78],[],[]] : T0), ([[],[],[],[],[4,10,18,18],[4,10,18,18],[4,10,18,18],[4,10,18,18],[],[4,10,18,18]] : T0)), (([[],[],[],[],[4,10,18,18],[4,10,18,18],[4,10,18,18],[4,10,18,18],[4,10,18,18],[]] : T0), ([[],[],[],[],[3,4,4],[3,4,4],[3,4,4],[3,4,4],[3,4,4],[3,4,4]] : T0))))))), ((((((([[],[],[],[5,31,154,684,2516,7104,13792,13792],[],[],[],[],[],[]] : T0), ([[],[],[],[5,26,114,420,1204,2352,2352],[],[],[],[],[],[5,26,114,420,1204,2352,2352]] : T0)), (([[],[],[],[4,22,96,350,990,1924,1924],[],[],[],[],[6,30,134,496,1414,2764,2764],[]] : T0), ([[],[],[],[4,18,64,176,340,340],[],[],[],[],[5,21,76,216,420,420],[5,22,78,216,418,418]] : T0))), ((([[],[],[],[5,26,114,424,1240,2448,2448],[],[],[],[5,26,114,424,1240,2448,2448],[],[]] : T0), ([[],[],[],[5,21,76,220,432,432],[],[],[],[5,21,76,220,432,432],[],[5,21,76,220,432,432]] : T0)), (([[],[],[],[4,18,64,180,356,356],[],[],[],[5,22,78,220,434,434],[5,21,76,220,432,432],[]] : T0), ([[],[],[],[4,14,40,78,78],[],[],[],[4,14,40,78,78],[4,14,40,78,78],[4,14,40,78,78]] : T0)))), (((([[],[],[],[5,26,108,384,1056,2016,2016],[],[],[6,28,120,432,1194,2292,2292],[],[],[]] : T0), ([[],[],[],[4,18,64,180,348,348],[],[],[5,21,74,210,408,408],[],[],[4,18,64,180,348,348]] : T0)), (([[],[],[],[4,19,67,183,346,346],[],[],[5,21,76,210,400,400],[],[5,21,78,218,420,420],[]] : T0), ([[],[],[],[3,12,32,60,60],[],[],[4,14,38,72,72],[],[4,14,40,78,78],[4,15,41,78,78]] : T0))), ((([[],[],[],[5,22,78,220,434,434],[],[],[5,21,76,220,432,432],[4,18,64,180,356,356],[],[]] : T0), ([[],[],[],[4,14,40,78,78],[],[],[4,14,40,78,78],[4,14,40,78,78],[],[4,14,40,78,78]] : T0)), (([[],[],[],[4,15,41,78,78],[],[],[4,14,40,78,78],[4,15,41,78,78],[4,14,40,78,78],[]] : T0), ([[],[],[],[3,9,18,18],[],[],[3,9,18,18],[3,9,18,18],[3,9,18,18],[3,9,18,18]] : T0))))), ((((([[],[],[],[5,28,128,480,1372,2672,2672],[],[7,38,176,660,1888,3680,3680],[],[],[],[]] : T0), ([[],[],[],[5,24,90,258,504,504],[],[6,28,106,306,600,600],[],[],[],[5,24,90,258,504,504]] : T0)), (([[],[],[],[4,19,72,208,408,408],[],[6,28,106,306,600,600],[],[],[6,28,106,306,600,600],[]] : T0), ([[],[],[],[4,15,41,78,78],[],[5,18,50,96,96],[],[],[5,18,50,96,96],[5,18,50,96,96]] : T0))), ((([[],[],[],[4,20,80,240,480,480],[],[6,30,120,360,720,720],[],[4,20,80,240,480,480],[],[]] : T0), ([[],[],[],[4,16,48,96,96],[],[5,20,60,120,120],[],[4,16,48,96,96],[],[5,20,60,120,120]] : T0)), (([[],[],[],[3,12,36,72,72],[],[5,20,60,120,120],[],[4,16,48,96,96],[5,20,60,120,120],[]] : T0), ([[],[],[],[3,9,18,18],[],[4,12,24,24],[],[3,9,18,18],[4,12,24,24],[4,12,24,24]] : T0)))), (((([[],[],[],[5,22,79,219,418,418],[],[6,26,94,260,496,496],[6,26,94,260,496,496],[],[],[]] : T0), ([[],[],[],[4,15,41,78,78],[],[5,18,50,96,96],[5,18,50,96,96],[],[],[4,15,41,78,78]] : T0)), (([[],[],[],[4,15,41,78,78],[],[5,18,50,96,96],[5,18,50,96,96],[],[5,18,50,96,96],[]] : T0), ([[],[],[],[3,8,14,14],[],[4,10,18,18],[4,10,18,18],[],[4,10,18,18],[4,10,18,18]] : T0))), ((([[],[],[],[4,16,48,96,96],[],[5,20,60,120,120],[5,20,60,120,120],[3,12,36,72,72],[],[]] : T0), ([[],[],[],[3,9,18,18],[],[4,12,24,24],[4,12,24,24],[3,9,18,18],[],[4,12,24,24]] : T0)), (([[],[],[],[3,9,18,18],[],[4,12,24,24],[4,12,24,24],[3,9,18,18],[4,12,24,24],[]] : T0), ([[],[],[],[2,4,4],[],[3,6,6],[3,6,6],[2,4,4],[3,6,6],[3,6,6]] : T0)))))), (((((([[],[],[],[4,22,96,350,990,1924,1924],[6,30,134,496,1414,2764,2764],[],[],[],[],[]] : T0), ([[],[],[],[4,18,70,206,408,408],[5,23,88,256,504,504],[],[],[],[],[4,18,70,206,408,408]] : T0)), (([[],[],[],[3,15,56,160,312,312],[5,23,88,256,504,504],[],[],[],[5,23,88,256,504,504],[]] : T0), ([[],[],[],[3,12,36,72,72],[4,16,48,96,96],[],[],[],[4,16,48,96,96],[4,16,48,96,96]] : T0))), ((([[],[],[],[4,18,64,180,356,356],[5,21,76,220,432,432],[],[],[5,22,78,220,434,434],[],[]] : T0), ([[],[],[],[4,14,40,78,78],[4,14,40,78,78],[],[],[5,18,50,96,96],[],[4,14,40,78,78]] : T0)), (([[],[],[],[3,12,32,60,60],[4,14,40,78,78],[],[],[5,18,50,96,96],[4,14,40,78,78],[]] : T0), ([[],[],[],[3,9,18,18],[3,9,18,18],[],[],[4,12,24,24],[3,9,18,18],[3,9,18,18]] : T0)))), (((([[],[],[],[4,16,54,152,292,292],[6,24,80,218,420,420],[],[6,24,80,218,420,420],[],[],[]] : T0), ([[],[],[],[3,10,30,60,60],[5,18,50,96,96],[],[5,18,50,96,96],[],[],[3,10,30,60,60]] : T0)), (([[],[],[],[3,11,31,60,60],[5,18,50,96,96],[],[5,18,50,96,96],[],[4,14,40,78,78],[]] : T0), ([[],[],[],[2,6,12,12],[4,12,24,24],[],[4,12,24,24],[],[3,9,18,18],[3,9,18,18]] : T0))), ((([[],[],[],[4,13,33,66,66],[5,16,40,80,80],[],[5,16,40,80,80],[4,13,33,66,66],[],[]] : T0), ([[],[],[],[3,7,14,14],[4,10,18,18],[],[4,10,18,18],[4,10,18,18],[],[3,7,14,14]] : T0)), (([[],[],[],[3,8,14,14],[4,10,18,18],[],[4,10,18,18],[4,10,18,18],[3,7,14,14],[]] : T0), ([[],[],[],[2,4,4],[3,6,6],[],[3,6,6],[3,6,6],[2,4,4],[2,4,4]] : T0))))), ((((([[],[],[],[4,19,72,208,408,408],[6,28,106,306,600,600],[6,28,106,306,600,600],[],[],[],[]] : T0), ([[],[],[],[4,16,48,96,96],[5,20,60,120,120],[5,20,60,120,120],[],[],[],[4,16,48,96,96]] : T0)), (([[],[],[],[3,12,36,72,72],[5,20,60,120,120],[5,20,60,120,120],[],[],[5,20,60,120,120],[]] : T0), ([[],[],[],[3,9,18,18],[4,12,24,24],[4,12,24,24],[],[],[4,12,24,24],[4,12,24,24]] : T0))), ((([[],[],[],[3,12,36,72,72],[5,20,60,120,120],[5,20,60,120,120],[],[4,16,48,96,96],[],[]] : T0), ([[],[],[],[3,9,18,18],[4,12,24,24],[4,12,24,24],[],[4,12,24,24],[],[4,12,24,24]] : T0)), (([[],[],[],[2,6,12,12],[4,12,24,24],[4,12,24,24],[],[4,12,24,24],[4,12,24,24],[]] : T0), ([[],[],[],[2,4,4],[3,6,6],[3,6,6],[],[3,6,6],[3,6,6],[3,6,6]] : T0)))), (((([[],[],[],[4,14,40,78,78],[5,18,50,96,96],[5,18,50,96,96],[5,18,50,96,96],[],[],[]] : T0), ([[],[],[],[3,9,18,18],[4,12,24,24],[4,12,24,24],[4,12,24,24],[],[],[3,9,18,18]] : T0)), (([[],[],[],[3,9,18,18],[4,12,24,24],[4,12,24,24],[4,12,24,24],[],[4,12,24,24],[]] : T0), ([[],[],[],[2,4,4],[3,6,6],[3,6,6],[3,6,6],[],[3,6,6],[3,6,6]] : T0))), ((([[],[],[],[3,9,18,18],[4,12,24,24],[4,12,24,24],[4,12,24,24],[3,9,18,18],[],[]] : T0), ([[],[],[],[2,4,4],[3,6,6],[3,6,6],[3,6,6],[3,6,6],[],[3,6,6]] : T0)), (([[],[],[],[2,4,4],[3,6,6],[3,6,6],[3,6,6],[3,6,6],[3,6,6],[]] : T0), ([[],[],[],[1,1],[2,2],[2,2],[2,2],[2,2],[2,2],[2,2]] : T0)))))))), (((((((([[],[],[7,37,188,816,2926,8118,15564,15564],[],[],[],[],[],[],[]] : T0), ([[],[],[6,30,134,496,1414,2764,2764],[],[],[],[],[],[],[4,22,96,350,990,1924,1924]] : T0)), (([[],[],[7,32,128,440,1228,2352,2352],[],[],[],[],[],[7,32,128,440,1228,2352,2352],[]] : T0), ([[],[],[6,24,80,218,420,420],[],[],[],[],[],[6,24,80,218,420,420],[4,16,54,152,292,292]] : T0))), ((([[],[],[6,30,134,496,1414,2764,2764],[],[],[],[],[4,22,96,350,990,1924,1924],[],[]] : T0), ([[],[],[5,23,88,256,504,504],[],[],[],[],[4,18,70,206,408,408],[],[4,18,70,206,408,408]] : T0)), (([[],[],[6,24,80,218,420,420],[],[],[],[],[4,16,54,152,292,292],[6,24,80,218,420,420],[]] : T0), ([[],[],[5,18,50,96,96],[],[],[],[],[3,10,30,60,60],[5,18,50,96,96],[3,10,30,60,60]] : T0)))), (((([[],[],[6,28,124,438,1196,2268,2268],[],[],[],[6,28,124,438,1196,2268,2268],[],[],[]] : T0), ([[],[],[5,21,78,218,420,420],[],[],[],[5,21,76,210,400,400],[],[],[4,19,67,183,346,346]] : T0)), (([[],[],[6,24,82,220,420,420],[],[],[],[5,19,66,180,340,340],[],[6,24,82,220,420,420],[]] : T0), ([[],[],[5,16,42,76,76],[],[],[],[4,12,32,58,58],[],[5,16,42,76,76],[4,13,34,62,62]] : T0))), ((([[],[],[5,23,88,256,504,504],[],[],[],[5,23,88,256,504,504],[3,15,56,160,312,312],[],[]] : T0), ([[],[],[4,16,48,96,96],[],[],[],[4,16,48,96,96],[3,12,36,72,72],[],[4,16,48,96,96]] : T0)), (([[],[],[5,18,50,96,96],[],[],[],[4,14,40,78,78],[3,11,31,60,60],[5,18,50,96,96],[]] : T0), ([[],[],[4,12,24,24],[],[],[],[3,9,18,18],[2,6,12,12],[4,12,24,24],[3,9,18,18]] : T0))))), ((((([[],[],[7,36,160,582,1634,3148,3148],[],[],[7,36,160,582,1634,3148,3148],[],[],[],[]] : T0), ([[],[],[6,28,106,306,600,600],[],[],[6,28,106,306,600,600],[],[],[],[4,19,72,208,408,408]] : T0)), (([[],[],[6,26,92,260,504,504],[],[],[6,26,92,260,504,504],[],[],[6,26,92,260,504,504],[]] : T0), ([[],[],[5,18,50,96,96],[],[],[5,18,50,96,96],[],[],[5,18,50,96,96],[4,14,40,78,78]] : T0))), ((([[],[],[6,28,106,306,600,600],[],[],[6,28,106,306,600,600],[],[4,19,72,208,408,408],[],[]] : T0), ([[],[],[5,20,60,120,120],[],[],[5,20,60,120,120],[],[4,16,48,96,96],[],[4,16,48,96,96]] : T0)), (([[],[],[5,18,50,96,96],[],[],[5,18,50,96,96],[],[4,14,40,78,78],[5,18,50,96,96],[]] : T0), ([[],[],[4,12,24,24],[],[],[4,12,24,24],[],[3,9,18,18],[4,12,24,24],[3,9,18,18]] : T0)))), (((([[],[],[6,26,94,260,496,496],[],[],[6,26,94,260,496,496],[6,26,94,260,496,496],[],[],[]] : T0), ([[],[],[5,18,50,96,96],[],[],[5,18,50,96,96],[5,18,50,96,96],[],[],[4,15,41,78,78]] : T0)), (([[],[],[5,18,50,96,96],[],[],[5,18,50,96,96],[5,18,50,96,96],[],[5,18,50,96,96],[]] : T0), ([[],[],[4,10,18,18],[],[],[4,10,18,18],[4,10,18,18],[],[4,10,18,18],[4,10,18,18]] : T0))), ((([[],[],[5,20,60,120,120],[],[],[5,20,60,120,120],[5,20,60,120,120],[3,12,36,72,72],[],[]] : T0), ([[],[],[4,12,24,24],[],[],[4,12,24,24],[4,12,24,24],[3,9,18,18],[],[4,12,24,24]] : T0)), (([[],[],[4,12,24,24],[],[],[4,12,24,24],[4,12,24,24],[3,9,18,18],[4,12,24,24],[]] : T0), ([[],[],[3,6,6],[],[],[3,6,6],[3,6,6],[2,4,4],[3,6,6],[3,6,6]] : T0)))))), (((((([[],[],[6,28,124,438,1196,2268,2268],[],[6,28,124,438,1196,2268,2268],[],[],[],[],[]] : T0), ([[],[],[5,23,88,256,504,504],[],[5,23,88,256,504,504],[],[],[],[],[3,15,56,160,312,312]] : T0)), (([[],[],[6,24,82,220,420,420],[],[5,19,66,180,340,340],[],[],[],[6,24,82,220,420,420],[]] : T0), ([[],[],[5,18,50,96,96],[],[4,14,40,78,78],[],[],[],[5,18,50,96,96],[3,11,31,60,60]] : T0))), ((([[],[],[5,21,78,218,420,420],[],[5,21,76,210,400,400],[],[],[4,19,67,183,346,346],[],[]] : T0), ([[],[],[4,16,48,96,96],[],[4,16,48,96,96],[],[],[4,16,48,96,96],[],[3,12,36,72,72]] : T0)), (([[],[],[5,16,42,76,76],[],[4,12,32,58,58],[],[],[4,13,34,62,62],[5,16,42,76,76],[]] : T0), ([[],[],[4,12,24,24],[],[3,9,18,18],[],[],[3,9,18,18],[4,12,24,24],[2,6,12,12]] : T0)))), (((([[],[],[5,19,66,180,340,340],[],[6,24,82,220,420,420],[],[6,24,82,220,420,420],[],[],[]] : T0), ([[],[],[4,14,40,78,78],[],[5,18,50,96,96],[],[5,18,50,96,96],[],[],[3,11,31,60,60]] : T0)), (([[],[],[5,16,40,80,80],[],[5,16,40,80,80],[],[5,16,40,80,80],[],[5,16,40,80,80],[]] : T0), ([[],[],[4,10,18,18],[],[4,10,18,18],[],[4,10,18,18],[],[4,10,18,18],[3,7,14,14]] : T0))), ((([[],[],[4,14,40,78,78],[],[5,18,50,96,96],[],[5,18,50,96,96],[3,11,31,60,60],[],[]] : T0), ([[],[],[3,9,18,18],[],[4,12,24,24],[],[4,12,24,24],[3,9,18,18],[],[3,9,18,18]] : T0)), (([[],[],[4,10,18,18],[],[4,10,18,18],[],[4,10,18,18],[3,7,14,14],[4,10,18,18],[]] : T0), ([[],[],[3,6,6],[],[3,6,6],[],[3,6,6],[2,4,4],[3,6,6],[2,4,4]] : T0))))), ((((([[],[],[6,26,94,260,496,496],[],[6,26,94,260,496,496],[6,26,94,260,496,496],[],[],[],[]] : T0), ([[],[],[5,20,60,120,120],[],[5,20,60,120,120],[5,20,60,120,120],[],[],[],[3,12,36,72,72]] : T0)), (([[],[],[5,18,50,96,96],[],[5,18,50,96,96],[5,18,50,96,96],[],[],[5,18,50,96,96],[]] : T0), ([[],[],[4,12,24,24],[],[4,12,24,24],[4,12,24,24],[],[],[4,12,24,24],[3,9,18,18]] : T0))), ((([[],[],[5,18,50,96,96],[],[5,18,50,96,96],[5,18,50,96,96],[],[4,15,41,78,78],[],[]] : T0), ([[],[],[4,12,24,24],[],[4,12,24,24],[4,12,24,24],[],[4,12,24,24],[],[3,9,18,18]] : T0)), (([[],[],[4,10,18,18],[],[4,10,18,18],[4,10,18,18],[],[4,10,18,18],[4,10,18,18],[]] : T0), ([[],[],[3,6,6],[],[3,6,6],[3,6,6],[],[3,6,6],[3,6,6],[2,4,4]] : T0)))), (((([[],[],[5,18,50,96,96],[],[5,18,50,96,96],[5,18,50,96,96],[5,18,50,96,96],[],[],[]] : T0), ([[],[],[4,12,24,24],[],[4,12,24,24],[4,12,24,24],[4,12,24,24],[],[],[3,9,18,18]] : T0)), (([[],[],[4,12,24,24],[],[4,12,24,24],[4,12,24,24],[4,12,24,24],[],[4,12,24,24],[]] : T0), ([[],[],[3,6,6],[],[3,6,6],[3,6,6],[3,6,6],[],[3,6,6],[3,6,6]] : T0))), ((([[],[],[4,12,24,24],[],[4,12,24,24],[4,12,24,24],[4,12,24,24],[3,9,18,18],[],[]] : T0), ([[],[],[3,6,6],[],[3,6,6],[3,6,6],[3,6,6],[3,6,6],[],[3,6,6]] : T0)), (([[],[],[3,6,6],[],[3,6,6],[3,6,6],[3,6,6],[3,6,6],[3,6,6],[]] : T0), ([[],[],[2,2],[],[2,2],[2,2],[2,2],[2,2],[2,2],[2,2]] : T0))))))), ((((((([[],[],[6,28,120,432,1194,2292,2292],[5,26,108,384,1056,2016,2016],[],[],[],[],[],[]] : T0), ([[],[],[5,21,76,216,420,420],[5,22,78,216,418,418],[],[],[],[],[],[4,18,64,176,340,340]] : T0)), (([[],[],[6,24,80,218,420,420],[4,16,54,152,292,292],[],[],[],[],[6,24,80,218,420,420],[]] : T0), ([[],[],[5,16,40,76,76],[4,13,33,62,62],[],[],[],[],[5,16,40,76,76],[4,13,33,62,62]] : T0))), ((([[],[],[5,21,76,220,432,432],[5,22,78,220,434,434],[],[],[],[4,18,64,180,356,356],[],[]] : T0), ([[],[],[4,14,40,78,78],[5,18,50,96,96],[],[],[],[4,14,40,78,78],[],[4,14,40,78,78]] : T0)), (([[],[],[5,16,40,80,80],[4,13,33,66,66],[],[],[],[4,13,33,66,66],[5,16,40,80,80],[]] : T0), ([[],[],[4,10,18,18],[4,10,18,18],[],[],[],[3,7,14,14],[4,10,18,18],[3,7,14,14]] : T0)))), (((([[],[],[5,19,68,180,332,332],[5,21,72,190,348,348],[],[],[5,19,68,180,332,332],[],[],[]] : T0), ([[],[],[4,14,40,78,78],[4,15,41,78,78],[],[],[4,14,38,72,72],[],[],[3,12,32,60,60]] : T0)), (([[],[],[5,16,42,76,76],[4,13,34,62,62],[],[],[4,12,32,58,58],[],[5,16,42,76,76],[]] : T0), ([[],[],[4,10,18,18],[3,8,14,14],[],[],[3,7,12,12],[],[4,10,18,18],[3,8,14,14]] : T0))), ((([[],[],[4,14,40,78,78],[5,18,50,96,96],[],[],[4,14,40,78,78],[3,12,32,60,60],[],[]] : T0), ([[],[],[3,9,18,18],[4,12,24,24],[],[],[3,9,18,18],[3,9,18,18],[],[3,9,18,18]] : T0)), (([[],[],[4,10,18,18],[4,10,18,18],[],[],[3,7,14,14],[3,8,14,14],[4,10,18,18],[]] : T0), ([[],[],[3,6,6],[3,6,6],[],[],[2,4,4],[2,4,4],[3,6,6],[2,4,4]] : T0))))), ((((([[],[],[6,26,94,260,496,496],[5,22,79,219,418,418],[],[6,26,94,260,496,496],[],[],[],[]] : T0), ([[],[],[5,18,50,96,96],[5,18,50,96,96],[],[5,18,50,96,96],[],[],[],[4,15,41,78,78]] : T0)), (([[],[],[5,18,50,96,96],[4,14,40,78,78],[],[5,18,50,96,96],[],[],[5,18,50,96,96],[]] : T0), ([[],[],[4,10,18,18],[4,10,18,18],[],[4,10,18,18],[],[],[4,10,18,18],[4,10,18,18]] : T0))), ((([[],[],[5,20,60,120,120],[4,16,48,96,96],[],[5,20,60,120,120],[],[3,12,36,72,72],[],[]] : T0), ([[],[],[4,12,24,24],[4,12,24,24],[],[4,12,24,24],[],[3,9,18,18],[],[4,12,24,24]] : T0)), (([[],[],[4,12,24,24],[3,9,18,18],[],[4,12,24,24],[],[3,9,18,18],[4,12,24,24],[]] : T0), ([[],[],[3,6,6],[3,6,6],[],[3,6,6],[],[2,4,4],[3,6,6],[3,6,6]] : T0)))), (((([[],[],[5,16,42,76,76],[5,16,42,76,76],[],[5,16,42,76,76],[5,16,42,76,76],[],[],[]] : T0), ([[],[],[4,10,18,18],[4,10,18,18],[],[4,10,18,18],[4,10,18,18],[],[],[3,8,14,14]] : T0)), (([[],[],[4,10,18,18],[4,10,18,18],[],[4,10,18,18],[4,10,18,18],[],[4,10,18,18],[]] : T0), ([[],[],[3,4,4],[3,4,4],[],[3,4,4],[3,4,4],[],[3,4,4],[3,4,4]] : T0))), ((([[],[],[4,12,24,24],[4,12,24,24],[],[4,12,24,24],[4,12,24,24],[2,6,12,12],[],[]] : T0), ([[],[],[3,6,6],[3,6,6],[],[3,6,6],[3,6,6],[2,4,4],[],[3,6,6]] : T0)), (([[],[],[3,6,6],[3,6,6],[],[3,6,6],[3,6,6],[2,4,4],[3,6,6],[]] : T0), ([[],[],[2,2],[2,2],[],[2,2],[2,2],[1,1],[2,2],[2,2]] : T0)))))), (((((([[],[],[5,21,76,210,400,400],[4,19,67,183,346,346],[5,21,78,218,420,420],[],[],[],[],[]] : T0), ([[],[],[4,16,48,96,96],[4,16,48,96,96],[4,16,48,96,96],[],[],[],[],[3,12,36,72,72]] : T0)), (([[],[],[5,18,50,96,96],[3,11,31,60,60],[4,14,40,78,78],[],[],[],[5,18,50,96,96],[]] : T0), ([[],[],[4,12,24,24],[3,9,18,18],[3,9,18,18],[],[],[],[4,12,24,24],[3,9,18,18]] : T0))), ((([[],[],[4,14,40,78,78],[4,15,41,78,78],[4,14,40,78,78],[],[],[4,15,41,78,78],[],[]] : T0), ([[],[],[3,9,18,18],[4,12,24,24],[3,9,18,18],[],[],[4,12,24,24],[],[3,9,18,18]] : T0)), (([[],[],[4,10,18,18],[3,8,14,14],[3,7,14,14],[],[],[4,10,18,18],[4,10,18,18],[]] : T0), ([[],[],[3,6,6],[3,6,6],[2,4,4],[],[],[3,6,6],[3,6,6],[2,4,4]] : T0)))), (((([[],[],[4,12,32,58,58],[4,13,34,62,62],[5,16,42,76,76],[],[5,16,42,76,76],[],[],[]] : T0), ([[],[],[3,9,18,18],[3,9,18,18],[4,12,24,24],[],[4,12,24,24],[],[],[2,6,12,12]] : T0)), (([[],[],[4,10,18,18],[3,7,14,14],[4,10,18,18],[],[4,10,18,18],[],[4,10,18,18],[]] : T0), ([[],[],[3,6,6],[2,4,4],[3,6,6],[],[3,6,6],[],[3,6,6],[2,4,4]] : T0))), ((([[],[],[3,7,14,14],[4,10,18,18],[4,10,18,18],[],[4,10,18,18],[3,8,14,14],[],[]] : T0), ([[],[],[2,4,4],[3,6,6],[3,6,6],[],[3,6,6],[3,6,6],[],[2,4,4]] : T0)), (([[],[],[3,4,4],[3,4,4],[3,4,4],[],[3,4,4],[3,4,4],[3,4,4],[]] : T0), ([[],[],[2,2],[2,2],[2,2],[],[2,2],[2,2],[2,2],[1,1]] : T0))))), ((((([[],[],[5,18,50,96,96],[4,15,41,78,78],[5,18,50,96,96],[5,18,50,96,96],[],[],[],[]] : T0), ([[],[],[4,12,24,24],[4,12,24,24],[4,12,24,24],[4,12,24,24],[],[],[],[3,9,18,18]] : T0)), (([[],[],[4,12,24,24],[3,9,18,18],[4,12,24,24],[4,12,24,24],[],[],[4,12,24,24],[]] : T0), ([[],[],[3,6,6],[3,6,6],[3,6,6],[3,6,6],[],[],[3,6,6],[3,6,6]] : T0))), ((([[],[],[4,12,24,24],[3,9,18,18],[4,12,24,24],[4,12,24,24],[],[3,9,18,18],[],[]] : T0), ([[],[],[3,6,6],[3,6,6],[3,6,6],[3,6,6],[],[3,6,6],[],[3,6,6]] : T0)), (([[],[],[3,6,6],[2,4,4],[3,6,6],[3,6,6],[],[3,6,6],[3,6,6],[]] : T0), ([[],[],[2,2],[2,2],[2,2],[2,2],[],[2,2],[2,2],[2,2]] : T0)))), (((([[],[],[4,10,18,18],[4,10,18,18],[4,10,18,18],[4,10,18,18],[4,10,18,18],[],[],[]] : T0), ([[],[],[3,6,6],[3,6,6],[3,6,6],[3,6,6],[3,6,6],[],[],[2,4,4]] : T0)), (([[],[],[3,6,6],[3,6,6],[3,6,6],[3,6,6],[3,6,6],[],[3,6,6],[]] : T0), ([[],[],[2,2],[2,2],[2,2],[2,2],[2,2],[],[2,2],[2,2]] : T0))), ((([[],[],[3,6,6],[3,6,6],[3,6,6],[3,6,6],[3,6,6],[2,4,4],[],[]] : T0), ([[],[],[2,2],[2,2],[2,2],[2,2],[2,2],[2,2],[],[2,2]] : T0)), (([[],[],[2,2],[2,2],[2,2],[2,2],[2,2],[2,2],[2,2],[]] : T0), ([[],[],[1],[1],[1],[1],[1],[1],[1],[1]] : T0))))))))), ((((((((([[],[5,31,154,684,2516,7104,13792,13792],[],[],[],[],[],[],[],[]] : T0), ([[],[5,26,114,424,1240,2448,2448],[],[],[],[],[],[],[],[5,26,114,424,1240,2448,2448]] : T0)), (([[],[4,22,96,350,990,1924,1924],[],[],[],[],[],[],[6,30,134,496,1414,2764,2764],[]] : T0), ([[],[4,18,64,180,356,356],[],[],[],[],[],[],[5,21,76,220,432,432],[5,22,78,220,434,434]] : T0))), ((([[],[5,26,114,420,1204,2352,2352],[],[],[],[],[],[5,26,114,420,1204,2352,2352],[],[]] : T0), ([[],[5,21,76,220,432,432],[],[],[],[],[],[5,21,76,220,432,432],[],[5,21,76,220,432,432]] : T0)), (([[],[4,18,64,176,340,340],[],[],[],[],[],[5,22,78,216,418,418],[5,21,76,216,420,420],[]] : T0), ([[],[4,14,40,78,78],[],[],[],[],[],[4,14,40,78,78],[4,14,40,78,78],[4,14,40,78,78]] : T0)))), (((([[],[4,22,96,350,990,1924,1924],[],[],[],[],[6,30,134,496,1414,2764,2764],[],[],[]] : T0), ([[],[4,18,64,180,356,356],[],[],[],[],[5,21,76,220,432,432],[],[],[5,22,78,220,434,434]] : T0)), (([[],[3,15,56,160,312,312],[],[],[],[],[5,23,88,256,504,504],[],[5,23,88,256,504,504],[]] : T0), ([[],[3,12,32,60,60],[],[],[],[],[4,14,40,78,78],[],[4,14,40,78,78],[5,18,50,96,96]] : T0))), ((([[],[4,18,70,206,408,408],[],[],[],[],[5,23,88,256,504,504],[4,18,70,206,408,408],[],[]] : T0), ([[],[4,14,40,78,78],[],[],[],[],[4,14,40,78,78],[4,14,40,78,78],[],[5,18,50,96,96]] : T0)), (([[],[3,12,36,72,72],[],[],[],[],[4,16,48,96,96],[4,16,48,96,96],[4,16,48,96,96],[]] : T0), ([[],[3,9,18,18],[],[],[],[],[3,9,18,18],[3,9,18,18],[3,9,18,18],[4,12,24,24]] : T0))))), ((((([[],[5,28,128,480,1372,2672,2672],[],[],[],[7,38,176,660,1888,3680,3680],[],[],[],[]] : T0), ([[],[4,20,80,240,480,480],[],[],[],[6,30,120,360,720,720],[],[],[],[4,20,80,240,480,480]] : T0)), (([[],[4,19,72,208,408,408],[],[],[],[6,28,106,306,600,600],[],[],[6,28,106,306,600,600],[]] : T0), ([[],[3,12,36,72,72],[],[],[],[5,20,60,120,120],[],[],[5,20,60,120,120],[4,16,48,96,96]] : T0))), ((([[],[5,24,90,258,504,504],[],[],[],[6,28,106,306,600,600],[],[5,24,90,258,504,504],[],[]] : T0), ([[],[4,16,48,96,96],[],[],[],[5,20,60,120,120],[],[5,20,60,120,120],[],[4,16,48,96,96]] : T0)), (([[],[4,15,41,78,78],[],[],[],[5,18,50,96,96],[],[5,18,50,96,96],[5,18,50,96,96],[]] : T0), ([[],[3,9,18,18],[],[],[],[4,12,24,24],[],[4,12,24,24],[4,12,24,24],[3,9,18,18]] : T0)))), (((([[],[4,19,72,208,408,408],[],[],[],[6,28,106,306,600,600],[6,28,106,306,600,600],[],[],[]] : T0), ([[],[3,12,36,72,72],[],[],[],[5,20,60,120,120],[5,20,60,120,120],[],[],[4,16,48,96,96]] : T0)), (([[],[3,12,36,72,72],[],[],[],[5,20,60,120,120],[5,20,60,120,120],[],[5,20,60,120,120],[]] : T0), ([[],[2,6,12,12],[],[],[],[4,12,24,24],[4,12,24,24],[],[4,12,24,24],[4,12,24,24]] : T0))), ((([[],[4,16,48,96,96],[],[],[],[5,20,60,120,120],[5,20,60,120,120],[4,16,48,96,96],[],[]] : T0), ([[],[3,9,18,18],[],[],[],[4,12,24,24],[4,12,24,24],[4,12,24,24],[],[4,12,24,24]] : T0)), (([[],[3,9,18,18],[],[],[],[4,12,24,24],[4,12,24,24],[4,12,24,24],[4,12,24,24],[]] : T0), ([[],[2,4,4],[],[],[],[3,6,6],[3,6,6],[3,6,6],[3,6,6],[3,6,6]] : T0)))))), (((((([[],[5,26,108,384,1056,2016,2016],[],[],[6,28,120,432,1194,2292,2292],[],[],[],[],[]] : T0), ([[],[5,22,78,220,434,434],[],[],[5,21,76,220,432,432],[],[],[],[],[4,18,64,180,356,356]] : T0)), (([[],[4,19,67,183,346,346],[],[],[5,21,76,210,400,400],[],[],[],[5,21,78,218,420,420],[]] : T0), ([[],[4,15,41,78,78],[],[],[4,14,40,78,78],[],[],[],[4,14,40,78,78],[4,15,41,78,78]] : T0))), ((([[],[4,18,64,180,348,348],[],[],[5,21,74,210,408,408],[],[],[4,18,64,180,348,348],[],[]] : T0), ([[],[4,14,40,78,78],[],[],[4,14,40,78,78],[],[],[4,14,40,78,78],[],[4,14,40,78,78]] : T0)), (([[],[3,12,32,60,60],[],[],[4,14,38,72,72],[],[],[4,15,41,78,78],[4,14,40,78,78],[]] : T0), ([[],[3,9,18,18],[],[],[3,9,18,18],[],[],[3,9,18,18],[3,9,18,18],[3,9,18,18]] : T0)))), (((([[],[4,16,54,152,292,292],[],[],[6,24,80,218,420,420],[],[6,24,80,218,420,420],[],[],[]] : T0), ([[],[4,13,33,66,66],[],[],[5,16,40,80,80],[],[5,16,40,80,80],[],[],[4,13,33,66,66]] : T0)), (([[],[3,11,31,60,60],[],[],[5,18,50,96,96],[],[5,18,50,96,96],[],[4,14,40,78,78],[]] : T0), ([[],[3,8,14,14],[],[],[4,10,18,18],[],[4,10,18,18],[],[3,7,14,14],[4,10,18,18]] : T0))), ((([[],[3,10,30,60,60],[],[],[5,18,50,96,96],[],[5,18,50,96,96],[3,10,30,60,60],[],[]] : T0), ([[],[3,7,14,14],[],[],[4,10,18,18],[],[4,10,18,18],[3,7,14,14],[],[4,10,18,18]] : T0)), (([[],[2,6,12,12],[],[],[4,12,24,24],[],[4,12,24,24],[3,9,18,18],[3,9,18,18],[]] : T0), ([[],[2,4,4],[],[],[3,6,6],[],[3,6,6],[2,4,4],[2,4,4],[3,6,6]] : T0))))), ((((([[],[5,22,79,219,418,418],[],[],[6,26,94,260,496,496],[6,26,94,260,496,496],[],[],[],[]] : T0), ([[],[4,16,48,96,96],[],[],[5,20,60,120,120],[5,20,60,120,120],[],[],[],[3,12,36,72,72]] : T0)), (([[],[4,15,41,78,78],[],[],[5,18,50,96,96],[5,18,50,96,96],[],[],[5,18,50,96,96],[]] : T0), ([[],[3,9,18,18],[],[],[4,12,24,24],[4,12,24,24],[],[],[4,12,24,24],[3,9,18,18]] : T0))), ((([[],[4,15,41,78,78],[],[],[5,18,50,96,96],[5,18,50,96,96],[],[4,15,41,78,78],[],[]] : T0), ([[],[3,9,18,18],[],[],[4,12,24,24],[4,12,24,24],[],[4,12,24,24],[],[3,9,18,18]] : T0)), (([[],[3,8,14,14],[],[],[4,10,18,18],[4,10,18,18],[],[4,10,18,18],[4,10,18,18],[]] : T0), ([[],[2,4,4],[],[],[3,6,6],[3,6,6],[],[3,6,6],[3,6,6],[2,4,4]] : T0)))), (((([[],[4,14,40,78,78],[],[],[5,18,50,96,96],[5,18,50,96,96],[5,18,50,96,96],[],[],[]] : T0), ([[],[3,9,18,18],[],[],[4,12,24,24],[4,12,24,24],[4,12,24,24],[],[],[3,9,18,18]] : T0)), (([[],[3,9,18,18],[],[],[4,12,24,24],[4,12,24,24],[4,12,24,24],[],[4,12,24,24],[]] : T0), ([[],[2,4,4],[],[],[3,6,6],[3,6,6],[3,6,6],[],[3,6,6],[3,6,6]] : T0))), ((([[],[3,9,18,18],[],[],[4,12,24,24],[4,12,24,24],[4,12,24,24],[3,9,18,18],[],[]] : T0), ([[],[2,4,4],[],[],[3,6,6],[3,6,6],[3,6,6],[3,6,6],[],[3,6,6]] : T0)), (([[],[2,4,4],[],[],[3,6,6],[3,6,6],[3,6,6],[3,6,6],[3,6,6],[]] : T0), ([[],[1,1],[],[],[2,2],[2,2],[2,2],[2,2],[2,2],[2,2]] : T0))))))), ((((((([[],[5,26,114,420,1204,2352,2352],[],[5,26,114,420,1204,2352,2352],[],[],[],[],[],[]] : T0), ([[],[5,21,76,220,432,432],[],[5,21,76,220,432,432],[],[],[],[],[],[5,21,76,220,432,432]] : T0)), (([[],[4,18,70,206,408,408],[],[4,18,70,206,408,408],[],[],[],[],[5,23,88,256,504,504],[]] : T0), ([[],[4,14,40,78,78],[],[4,14,40,78,78],[],[],[],[],[4,14,40,78,78],[5,18,50,96,96]] : T0))), ((([[],[5,21,76,220,432,432],[],[5,21,76,220,432,432],[],[],[],[5,21,76,220,432,432],[],[]] : T0), ([[],[5,16,40,80,80],[],[5,16,40,80,80],[],[],[],[5,16,40,80,80],[],[5,16,40,80,80]] : T0)), (([[],[4,14,40,78,78],[],[4,14,40,78,78],[],[],[],[5,18,50,96,96],[4,14,40,78,78],[]] : T0), ([[],[4,10,18,18],[],[4,10,18,18],[],[],[],[4,10,18,18],[3,7,14,14],[4,10,18,18]] : T0)))), (((([[],[4,18,64,176,340,340],[],[5,22,78,216,418,418],[],[],[5,21,76,216,420,420],[],[],[]] : T0), ([[],[4,14,40,78,78],[],[4,14,40,78,78],[],[],[4,14,40,78,78],[],[],[4,14,40,78,78]] : T0)), (([[],[3,12,36,72,72],[],[4,16,48,96,96],[],[],[4,16,48,96,96],[],[4,16,48,96,96],[]] : T0), ([[],[3,9,18,18],[],[3,9,18,18],[],[],[3,9,18,18],[],[3,9,18,18],[4,12,24,24]] : T0))), ((([[],[4,14,40,78,78],[],[5,18,50,96,96],[],[],[4,14,40,78,78],[4,14,40,78,78],[],[]] : T0), ([[],[4,10,18,18],[],[4,10,18,18],[],[],[3,7,14,14],[4,10,18,18],[],[4,10,18,18]] : T0)), (([[],[3,9,18,18],[],[4,12,24,24],[],[],[3,9,18,18],[4,12,24,24],[3,9,18,18],[]] : T0), ([[],[3,6,6],[],[3,6,6],[],[],[2,4,4],[3,6,6],[2,4,4],[3,6,6]] : T0))))), ((((([[],[5,24,90,258,504,504],[],[5,24,90,258,504,504],[],[6,28,106,306,600,600],[],[],[],[]] : T0), ([[],[4,16,48,96,96],[],[5,20,60,120,120],[],[5,20,60,120,120],[],[],[],[4,16,48,96,96]] : T0)), (([[],[4,16,48,96,96],[],[4,16,48,96,96],[],[5,20,60,120,120],[],[],[5,20,60,120,120],[]] : T0), ([[],[3,9,18,18],[],[4,12,24,24],[],[4,12,24,24],[],[],[4,12,24,24],[4,12,24,24]] : T0))), ((([[],[5,20,60,120,120],[],[4,16,48,96,96],[],[5,20,60,120,120],[],[4,16,48,96,96],[],[]] : T0), ([[],[4,12,24,24],[],[4,12,24,24],[],[4,12,24,24],[],[4,12,24,24],[],[4,12,24,24]] : T0)), (([[],[4,12,24,24],[],[3,9,18,18],[],[4,12,24,24],[],[4,12,24,24],[4,12,24,24],[]] : T0), ([[],[3,6,6],[],[3,6,6],[],[3,6,6],[],[3,6,6],[3,6,6],[3,6,6]] : T0)))), (((([[],[4,15,41,78,78],[],[5,18,50,96,96],[],[5,18,50,96,96],[5,18,50,96,96],[],[],[]] : T0), ([[],[3,9,18,18],[],[4,12,24,24],[],[4,12,24,24],[4,12,24,24],[],[],[3,9,18,18]] : T0)), (([[],[3,9,18,18],[],[4,12,24,24],[],[4,12,24,24],[4,12,24,24],[],[4,12,24,24],[]] : T0), ([[],[2,4,4],[],[3,6,6],[],[3,6,6],[3,6,6],[],[3,6,6],[3,6,6]] : T0))), ((([[],[4,12,24,24],[],[4,12,24,24],[],[4,12,24,24],[4,12,24,24],[3,9,18,18],[],[]] : T0), ([[],[3,6,6],[],[3,6,6],[],[3,6,6],[3,6,6],[3,6,6],[],[3,6,6]] : T0)), (([[],[3,6,6],[],[3,6,6],[],[3,6,6],[3,6,6],[3,6,6],[3,6,6],[]] : T0), ([[],[2,2],[],[2,2],[],[2,2],[2,2],[2,2],[2,2],[2,2]] : T0)))))), (((((([[],[5,22,78,216,418,418],[],[4,18,64,176,340,340],[5,21,76,216,420,420],[],[],[],[],[]] : T0), ([[],[5,18,50,96,96],[],[4,14,40,78,78],[4,14,40,78,78],[],[],[],[],[4,14,40,78,78]] : T0)), (([[],[4,16,48,96,96],[],[3,12,36,72,72],[4,16,48,96,96],[],[],[],[4,16,48,96,96],[]] : T0), ([[],[4,12,24,24],[],[3,9,18,18],[3,9,18,18],[],[],[],[3,9,18,18],[4,12,24,24]] : T0))), ((([[],[4,14,40,78,78],[],[4,14,40,78,78],[4,14,40,78,78],[],[],[4,14,40,78,78],[],[]] : T0), ([[],[4,10,18,18],[],[4,10,18,18],[3,7,14,14],[],[],[4,10,18,18],[],[4,10,18,18]] : T0)), (([[],[3,9,18,18],[],[3,9,18,18],[3,9,18,18],[],[],[4,12,24,24],[3,9,18,18],[]] : T0), ([[],[3,6,6],[],[3,6,6],[2,4,4],[],[],[3,6,6],[2,4,4],[3,6,6]] : T0)))), (((([[],[4,13,33,62,62],[],[4,13,33,62,62],[5,16,40,76,76],[],[5,16,40,76,76],[],[],[]] : T0), ([[],[4,10,18,18],[],[3,7,14,14],[4,10,18,18],[],[4,10,18,18],[],[],[3,7,14,14]] : T0)), (([[],[3,9,18,18],[],[3,9,18,18],[4,12,24,24],[],[4,12,24,24],[],[3,9,18,18],[]] : T0), ([[],[3,6,6],[],[2,4,4],[3,6,6],[],[3,6,6],[],[2,4,4],[3,6,6]] : T0))), ((([[],[3,7,14,14],[],[4,10,18,18],[4,10,18,18],[],[4,10,18,18],[3,7,14,14],[],[]] : T0), ([[],[3,4,4],[],[3,4,4],[3,4,4],[],[3,4,4],[3,4,4],[],[3,4,4]] : T0)), (([[],[2,4,4],[],[3,6,6],[3,6,6],[],[3,6,6],[3,6,6],[2,4,4],[]] : T0), ([[],[2,2],[],[2,2],[2,2],[],[2,2],[2,2],[1,1],[2,2]] : T0))))), ((((([[],[5,18,50,96,96],[],[4,15,41,78,78],[5,18,50,96,96],[5,18,50,96,96],[],[],[],[]] : T0), ([[],[4,12,24,24],[],[4,12,24,24],[4,12,24,24],[4,12,24,24],[],[],[],[3,9,18,18]] : T0)), (([[],[4,12,24,24],[],[3,9,18,18],[4,12,24,24],[4,12,24,24],[],[],[4,12,24,24],[]] : T0), ([[],[3,6,6],[],[3,6,6],[3,6,6],[3,6,6],[],[],[3,6,6],[3,6,6]] : T0))), ((([[],[4,12,24,24],[],[3,9,18,18],[4,12,24,24],[4,12,24,24],[],[3,9,18,18],[],[]] : T0), ([[],[3,6,6],[],[3,6,6],[3,6,6],[3,6,6],[],[3,6,6],[],[3,6,6]] : T0)), (([[],[3,6,6],[],[2,4,4],[3,6,6],[3,6,6],[],[3,6,6],[3,6,6],[]] : T0), ([[],[2,2],[],[2,2],[2,2],[2,2],[],[2,2],[2,2],[2,2]] : T0)))), (((([[],[4,10,18,18],[],[4,10,18,18],[4,10,18,18],[4,10,18,18],[4,10,18,18],[],[],[]] : T0), ([[],[3,6,6],[],[3,6,6],[3,6,6],[3,6,6],[3,6,6],[],[],[2,4,4]] : T0)), (([[],[3,6,6],[],[3,6,6],[3,6,6],[3,6,6],[3,6,6],[],[3,6,6],[]] : T0), ([[],[2,2],[],[2,2],[2,2],[2,2],[2,2],[],[2,2],[2,2]] : T0))), ((([[],[3,6,6],[],[3,6,6],[3,6,6],[3,6,6],[3,6,6],[2,4,4],[],[]] : T0), ([[],[2,2],[],[2,2],[2,2],[2,2],[2,2],[2,2],[],[2,2]] : T0)), (([[],[2,2],[],[2,2],[2,2],[2,2],[2,2],[2,2],[2,2],[]] : T0), ([[],[1],[],[1],[1],[1],[1],[1],[1],[1]] : T0)))))))), (((((((([[],[5,26,108,384,1056,2016,2016],[6,28,120,432,1194,2292,2292],[],[],[],[],[],[],[]] : T0), ([[],[5,22,78,220,434,434],[5,21,76,220,432,432],[],[],[],[],[],[],[4,18,64,180,356,356]] : T0)), (([[],[4,16,54,152,292,292],[6,24,80,218,420,420],[],[],[],[],[],[6,24,80,218,420,420],[]] : T0), ([[],[4,13,33,66,66],[5,16,40,80,80],[],[],[],[],[],[5,16,40,80,80],[4,13,33,66,66]] : T0))), ((([[],[5,22,78,216,418,418],[5,21,76,216,420,420],[],[],[],[],[4,18,64,176,340,340],[],[]] : T0), ([[],[5,18,50,96,96],[4,14,40,78,78],[],[],[],[],[4,14,40,78,78],[],[4,14,40,78,78]] : T0)), (([[],[4,13,33,62,62],[5,16,40,76,76],[],[],[],[],[4,13,33,62,62],[5,16,40,76,76],[]] : T0), ([[],[4,10,18,18],[4,10,18,18],[],[],[],[],[3,7,14,14],[4,10,18,18],[3,7,14,14]] : T0)))), (((([[],[4,19,67,183,346,346],[5,21,76,210,400,400],[],[],[],[5,21,78,218,420,420],[],[],[]] : T0), ([[],[4,15,41,78,78],[4,14,40,78,78],[],[],[],[4,14,40,78,78],[],[],[4,15,41,78,78]] : T0)), (([[],[3,11,31,60,60],[5,18,50,96,96],[],[],[],[4,14,40,78,78],[],[5,18,50,96,96],[]] : T0), ([[],[3,8,14,14],[4,10,18,18],[],[],[],[3,7,14,14],[],[4,10,18,18],[4,10,18,18]] : T0))), ((([[],[4,16,48,96,96],[4,16,48,96,96],[],[],[],[4,16,48,96,96],[3,12,36,72,72],[],[]] : T0), ([[],[4,12,24,24],[3,9,18,18],[],[],[],[3,9,18,18],[3,9,18,18],[],[4,12,24,24]] : T0)), (([[],[3,9,18,18],[4,12,24,24],[],[],[],[3,9,18,18],[3,9,18,18],[4,12,24,24],[]] : T0), ([[],[3,6,6],[3,6,6],[],[],[],[2,4,4],[2,4,4],[3,6,6],[3,6,6]] : T0))))), ((((([[],[5,22,79,219,418,418],[6,26,94,260,496,496],[],[],[6,26,94,260,496,496],[],[],[],[]] : T0), ([[],[4,16,48,96,96],[5,20,60,120,120],[],[],[5,20,60,120,120],[],[],[],[3,12,36,72,72]] : T0)), (([[],[4,14,40,78,78],[5,18,50,96,96],[],[],[5,18,50,96,96],[],[],[5,18,50,96,96],[]] : T0), ([[],[3,9,18,18],[4,12,24,24],[],[],[4,12,24,24],[],[],[4,12,24,24],[3,9,18,18]] : T0))), ((([[],[5,18,50,96,96],[5,18,50,96,96],[],[],[5,18,50,96,96],[],[4,15,41,78,78],[],[]] : T0), ([[],[4,12,24,24],[4,12,24,24],[],[],[4,12,24,24],[],[4,12,24,24],[],[3,9,18,18]] : T0)), (([[],[4,10,18,18],[4,10,18,18],[],[],[4,10,18,18],[],[4,10,18,18],[4,10,18,18],[]] : T0), ([[],[3,6,6],[3,6,6],[],[],[3,6,6],[],[3,6,6],[3,6,6],[2,4,4]] : T0)))), (((([[],[4,15,41,78,78],[5,18,50,96,96],[],[],[5,18,50,96,96],[5,18,50,96,96],[],[],[]] : T0), ([[],[3,9,18,18],[4,12,24,24],[],[],[4,12,24,24],[4,12,24,24],[],[],[3,9,18,18]] : T0)), (([[],[3,9,18,18],[4,12,24,24],[],[],[4,12,24,24],[4,12,24,24],[],[4,12,24,24],[]] : T0), ([[],[2,4,4],[3,6,6],[],[],[3,6,6],[3,6,6],[],[3,6,6],[3,6,6]] : T0))), ((([[],[4,12,24,24],[4,12,24,24],[],[],[4,12,24,24],[4,12,24,24],[3,9,18,18],[],[]] : T0), ([[],[3,6,6],[3,6,6],[],[],[3,6,6],[3,6,6],[3,6,6],[],[3,6,6]] : T0)), (([[],[3,6,6],[3,6,6],[],[],[3,6,6],[3,6,6],[3,6,6],[3,6,6],[]] : T0), ([[],[2,2],[2,2],[],[],[2,2],[2,2],[2,2],[2,2],[2,2]] : T0)))))), (((((([[],[5,21,72,190,348,348],[5,19,68,180,332,332],[],[5,19,68,180,332,332],[],[],[],[],[]] : T0), ([[],[5,18,50,96,96],[4,14,40,78,78],[],[4,14,40,78,78],[],[],[],[],[3,12,32,60,60]] : T0)), (([[],[4,13,34,62,62],[5,16,42,76,76],[],[4,12,32,58,58],[],[],[],[5,16,42,76,76],[]] : T0), ([[],[4,10,18,18],[4,10,18,18],[],[3,7,14,14],[],[],[],[4,10,18,18],[3,8,14,14]] : T0))), ((([[],[4,15,41,78,78],[4,14,40,78,78],[],[4,14,38,72,72],[],[],[3,12,32,60,60],[],[]] : T0), ([[],[4,12,24,24],[3,9,18,18],[],[3,9,18,18],[],[],[3,9,18,18],[],[3,9,18,18]] : T0)), (([[],[3,8,14,14],[4,10,18,18],[],[3,7,12,12],[],[],[3,8,14,14],[4,10,18,18],[]] : T0), ([[],[3,6,6],[3,6,6],[],[2,4,4],[],[],[2,4,4],[3,6,6],[2,4,4]] : T0)))), (((([[],[4,13,34,62,62],[4,12,32,58,58],[],[5,16,42,76,76],[],[5,16,42,76,76],[],[],[]] : T0), ([[],[4,10,18,18],[3,7,14,14],[],[4,10,18,18],[],[4,10,18,18],[],[],[3,8,14,14]] : T0)), (([[],[3,7,14,14],[4,10,18,18],[],[4,10,18,18],[],[4,10,18,18],[],[4,10,18,18],[]] : T0), ([[],[3,4,4],[3,4,4],[],[3,4,4],[],[3,4,4],[],[3,4,4],[3,4,4]] : T0))), ((([[],[3,9,18,18],[3,9,18,18],[],[4,12,24,24],[],[4,12,24,24],[2,6,12,12],[],[]] : T0), ([[],[3,6,6],[2,4,4],[],[3,6,6],[],[3,6,6],[2,4,4],[],[3,6,6]] : T0)), (([[],[2,4,4],[3,6,6],[],[3,6,6],[],[3,6,6],[2,4,4],[3,6,6],[]] : T0), ([[],[2,2],[2,2],[],[2,2],[],[2,2],[1,1],[2,2],[2,2]] : T0))))), ((((([[],[5,16,42,76,76],[5,16,42,76,76],[],[5,16,42,76,76],[5,16,42,76,76],[],[],[],[]] : T0), ([[],[4,12,24,24],[4,12,24,24],[],[4,12,24,24],[4,12,24,24],[],[],[],[2,6,12,12]] : T0)), (([[],[4,10,18,18],[4,10,18,18],[],[4,10,18,18],[4,10,18,18],[],[],[4,10,18,18],[]] : T0), ([[],[3,6,6],[3,6,6],[],[3,6,6],[3,6,6],[],[],[3,6,6],[2,4,4]] : T0))), ((([[],[4,10,18,18],[4,10,18,18],[],[4,10,18,18],[4,10,18,18],[],[3,8,14,14],[],[]] : T0), ([[],[3,6,6],[3,6,6],[],[3,6,6],[3,6,6],[],[3,6,6],[],[2,4,4]] : T0)), (([[],[3,4,4],[3,4,4],[],[3,4,4],[3,4,4],[],[3,4,4],[3,4,4],[]] : T0), ([[],[2,2],[2,2],[],[2,2],[2,2],[],[2,2],[2,2],[1,1]] : T0)))), (((([[],[4,10,18,18],[4,10,18,18],[],[4,10,18,18],[4,10,18,18],[4,10,18,18],[],[],[]] : T0), ([[],[3,6,6],[3,6,6],[],[3,6,6],[3,6,6],[3,6,6],[],[],[2,4,4]] : T0)), (([[],[3,6,6],[3,6,6],[],[3,6,6],[3,6,6],[3,6,6],[],[3,6,6],[]] : T0), ([[],[2,2],[2,2],[],[2,2],[2,2],[2,2],[],[2,2],[2,2]] : T0))), ((([[],[3,6,6],[3,6,6],[],[3,6,6],[3,6,6],[3,6,6],[2,4,4],[],[]] : T0), ([[],[2,2],[2,2],[],[2,2],[2,2],[2,2],[2,2],[],[2,2]] : T0)), (([[],[2,2],[2,2],[],[2,2],[2,2],[2,2],[2,2],[2,2],[]] : T0), ([[],[1],[1],[],[1],[1],[1],[1],[1],[1]] : T0))))))), ((((((([[],[4,18,64,180,348,348],[5,21,74,210,408,408],[4,18,64,180,348,348],[],[],[],[],[],[]] : T0), ([[],[4,14,40,78,78],[4,14,40,78,78],[4,14,40,78,78],[],[],[],[],[],[4,14,40,78,78]] : T0)), (([[],[3,10,30,60,60],[5,18,50,96,96],[3,10,30,60,60],[],[],[],[],[5,18,50,96,96],[]] : T0), ([[],[3,7,14,14],[4,10,18,18],[3,7,14,14],[],[],[],[],[4,10,18,18],[4,10,18,18]] : T0))), ((([[],[4,14,40,78,78],[4,14,40,78,78],[4,14,40,78,78],[],[],[],[4,14,40,78,78],[],[]] : T0), ([[],[4,10,18,18],[3,7,14,14],[4,10,18,18],[],[],[],[4,10,18,18],[],[4,10,18,18]] : T0)), (([[],[3,7,14,14],[4,10,18,18],[3,7,14,14],[],[],[],[4,10,18,18],[4,10,18,18],[]] : T0), ([[],[3,4,4],[3,4,4],[3,4,4],[],[],[],[3,4,4],[3,4,4],[3,4,4]] : T0)))), (((([[],[3,12,32,60,60],[4,14,38,72,72],[4,15,41,78,78],[],[],[4,14,40,78,78],[],[],[]] : T0), ([[],[3,9,18,18],[3,9,18,18],[3,9,18,18],[],[],[3,9,18,18],[],[],[3,9,18,18]] : T0)), (([[],[2,6,12,12],[4,12,24,24],[3,9,18,18],[],[],[3,9,18,18],[],[4,12,24,24],[]] : T0), ([[],[2,4,4],[3,6,6],[2,4,4],[],[],[2,4,4],[],[3,6,6],[3,6,6]] : T0))), ((([[],[3,9,18,18],[3,9,18,18],[4,12,24,24],[],[],[3,9,18,18],[3,9,18,18],[],[]] : T0), ([[],[3,6,6],[2,4,4],[3,6,6],[],[],[2,4,4],[3,6,6],[],[3,6,6]] : T0)), (([[],[2,4,4],[3,6,6],[3,6,6],[],[],[2,4,4],[3,6,6],[3,6,6],[]] : T0), ([[],[2,2],[2,2],[2,2],[],[],[1,1],[2,2],[2,2],[2,2]] : T0))))), ((((([[],[4,15,41,78,78],[5,18,50,96,96],[4,15,41,78,78],[],[5,18,50,96,96],[],[],[],[]] : T0), ([[],[3,9,18,18],[4,12,24,24],[4,12,24,24],[],[4,12,24,24],[],[],[],[3,9,18,18]] : T0)), (([[],[3,9,18,18],[4,12,24,24],[3,9,18,18],[],[4,12,24,24],[],[],[4,12,24,24],[]] : T0), ([[],[2,4,4],[3,6,6],[3,6,6],[],[3,6,6],[],[],[3,6,6],[3,6,6]] : T0))), ((([[],[4,12,24,24],[4,12,24,24],[3,9,18,18],[],[4,12,24,24],[],[3,9,18,18],[],[]] : T0), ([[],[3,6,6],[3,6,6],[3,6,6],[],[3,6,6],[],[3,6,6],[],[3,6,6]] : T0)), (([[],[3,6,6],[3,6,6],[2,4,4],[],[3,6,6],[],[3,6,6],[3,6,6],[]] : T0), ([[],[2,2],[2,2],[2,2],[],[2,2],[],[2,2],[2,2],[2,2]] : T0)))), (((([[],[3,8,14,14],[4,10,18,18],[4,10,18,18],[],[4,10,18,18],[4,10,18,18],[],[],[]] : T0), ([[],[2,4,4],[3,6,6],[3,6,6],[],[3,6,6],[3,6,6],[],[],[2,4,4]] : T0)), (([[],[2,4,4],[3,6,6],[3,6,6],[],[3,6,6],[3,6,6],[],[3,6,6],[]] : T0), ([[],[1,1],[2,2],[2,2],[],[2,2],[2,2],[],[2,2],[2,2]] : T0))), ((([[],[3,6,6],[3,6,6],[3,6,6],[],[3,6,6],[3,6,6],[2,4,4],[],[]] : T0), ([[],[2,2],[2,2],[2,2],[],[2,2],[2,2],[2,2],[],[2,2]] : T0)), (([[],[2,2],[2,2],[2,2],[],[2,2],[2,2],[2,2],[2,2],[]] : T0), ([[],[1],[1],[1],[],[1],[1],[1],[1],[1]] : T0)))))), (((((([[],[4,15,41,78,78],[4,14,38,72,72],[3,12,32,60,60],[4,14,40,78,78],[],[],[],[],[]] : T0), ([[],[4,12,24,24],[3,9,18,18],[3,9,18,18],[3,9,18,18],[],[],[],[],[3,9,18,18]] : T0)), (([[],[3,9,18,18],[4,12,24,24],[2,6,12,12],[3,9,18,18],[],[],[],[4,12,24,24],[]] : T0), ([[],[3,6,6],[3,6,6],[2,4,4],[2,4,4],[],[],[],[3,6,6],[3,6,6]] : T0))), ((([[],[3,9,18,18],[3,9,18,18],[3,9,18,18],[3,9,18,18],[],[],[3,9,18,18],[],[]] : T0), ([[],[3,6,6],[2,4,4],[3,6,6],[2,4,4],[],[],[3,6,6],[],[3,6,6]] : T0)), (([[],[2,4,4],[3,6,6],[2,4,4],[2,4,4],[],[],[3,6,6],[3,6,6],[]] : T0), ([[],[2,2],[2,2],[2,2],[1,1],[],[],[2,2],[2,2],[2,2]] : T0)))), (((([[],[3,8,14,14],[3,7,12,12],[3,8,14,14],[4,10,18,18],[],[4,10,18,18],[],[],[]] : T0), ([[],[3,6,6],[2,4,4],[2,4,4],[3,6,6],[],[3,6,6],[],[],[2,4,4]] : T0)), (([[],[2,4,4],[3,6,6],[2,4,4],[3,6,6],[],[3,6,6],[],[3,6,6],[]] : T0), ([[],[2,2],[2,2],[1,1],[2,2],[],[2,2],[],[2,2],[2,2]] : T0))), ((([[],[2,4,4],[2,4,4],[3,6,6],[3,6,6],[],[3,6,6],[2,4,4],[],[]] : T0), ([[],[2,2],[1,1],[2,2],[2,2],[],[2,2],[2,2],[],[2,2]] : T0)), (([[],[1,1],[2,2],[2,2],[2,2],[],[2,2],[2,2],[2,2],[]] : T0), ([[],[1],[1],[1],[1],[],[1],[1],[1],[1]] : T0))))), ((((([[],[4,10,18,18],[4,10,18,18],[3,8,14,14],[4,10,18,18],[4,10,18,18],[],[],[],[]] : T0), ([[],[3,6,6],[3,6,6],[3,6,6],[3,6,6],[3,6,6],[],[],[],[2,4,4]] : T0)), (([[],[3,6,6],[3,6,6],[2,4,4],[3,6,6],[3,6,6],[],[],[3,6,6],[]] : T0), ([[],[2,2],[2,2],[2,2],[2,2],[2,2],[],[],[2,2],[2,2]] : T0))), ((([[],[3,6,6],[3,6,6],[2,4,4],[3,6,6],[3,6,6],[],[2,4,4],[],[]] : T0), ([[],[2,2],[2,2],[2,2],[2,2],[2,2],[],[2,2],[],[2,2]] : T0)), (([[],[2,2],[2,2],[1,1],[2,2],[2,2],[],[2,2],[2,2],[]] : T0), ([[],[1],[1],[1],[1],[1],[],[1],[1],[1]] : T0)))), (((([[],[3,4,4],[3,4,4],[3,4,4],[3,4,4],[3,4,4],[3,4,4],[],[],[]] : T0), ([[],[2,2],[2,2],[2,2],[2,2],[2,2],[2,2],[],[],[1,1]] : T0)), (([[],[2,2],[2,2],[2,2],[2,2],[2,2],[2,2],[],[2,2],[]] : T0), ([[],[1],[1],[1],[1],[1],[1],[],[1],[1]] : T0))), ((([[],[2,2],[2,2],[2,2],[2,2],[2,2],[2,2],[1,1],[],[]] : T0), ([[],[1],[1],[1],[1],[1],[1],[1],[],[1]] : T0)), (([[],[1],[1],[1],[1],[1],[1],[1],[1],[]] : T0), ([[],[],[],[],[],[],[],[],[],[]] : T0))))))))))


/-- Elementwise addition of a vector into a counter list (excess entries of
the vector beyond the counter length are dropped, mirroring out-of-range
array writes never performed by the program). -/
def addInto : List Nat → List Nat → List Nat
  | counts, [] => counts
  | [], _ :: _ => []
  | c :: cs, x :: xs => (c + x) :: addInto cs xs

/-- Add a vector into a counter list starting at a given index. -/
def overlay : List Nat → Nat → List Nat → List Nat
  | counts, 0, v => addInto counts v
  | [], _ + 1, _ => []
  | c :: cs, l + 1, v => c :: overlay cs l v


set_option maxRecDepth 4000 in
/-- The table satisfies the defining recurrence of `fast_counts` at every
reachable state: each stored vector is rebuilt from the stored vectors of
its successor states.  Checked by kernel computation. -/
theorem table_fix : ∀ mask : Nat, mask < 1024 → mask % 2 = 0 → ∀ p : Nat, p < 10 →
    (mask.testBit p || (p == 0 && mask == 0)) = true →
    lookupV pattern_count_table mask p =
      fc_loop (fun i nm => lookupV pattern_count_table nm i) tblN p mask
        candidate_ids := by decide!

theorem cand_facts : ∀ i ∈ candidate_ids, 1 ≤ i ∧ i ≤ 9 := by decide

theorem bitsOn_le (mask : Nat) : bitsOn mask ≤ 9 := by
  have h := List.length_filter_le (fun i => mask.testBit i) candidate_ids
  simpa [bitsOn] using h

theorem filter_length_orb {q : Nat → Bool} {i : Nat} :
    ∀ l : List Nat, l.Nodup → i ∈ l → q i = false →
    (l.filter (fun k => q k || k == i)).length = (l.filter q).length + 1 := by
  intro l
  induction l with
  | nil => intro _ h; cases h
  | cons a rest ih =>
    intro hnd hmem hqi
    rcases List.mem_cons.mp hmem with rfl | hmem2
    · have hrest : ∀ k ∈ rest, (q k || k == i) = q k := by
        intro k hk
        have hne : (k == i) = false :=
          beq_eq_false_iff_ne.mpr (fun he => (List.nodup_cons.mp hnd).1 (he ▸ hk))
        rw [hne, Bool.or_false]
      simp [List.filter_cons, hqi, List.filter_congr hrest]
    · have ha : (a == i) = false :=
        beq_eq_false_iff_ne.mpr (fun he => (List.nodup_cons.mp hnd).1 (he ▸ hmem2))
      have hr := ih (List.nodup_cons.mp hnd).2 hmem2 hqi
      by_cases hqa : q a = true
      · simp [List.filter_cons, hqa, ha, hr]
      · have hqa2 : q a = false := by
          cases h2 : q a
          · rfl
          · exact absurd h2 hqa
        simp [List.filter_cons, hqa2, ha, hr]

theorem testBit_lor_one_shift (mask i k : Nat) :
    (mask ||| 1 <<< i).testBit k = (mask.testBit k || k == i) := by
  rw [Nat.one_shiftLeft, Nat.testBit_lor, Nat.testBit_two_pow]
  have : (decide (i = k)) = (k == i) := by
    by_cases h : i = k
    · subst h; simp
    · have h2 : (k == i) = false := beq_eq_false_iff_ne.mpr (Ne.symm h)
      simp [h, h2]
  rw [this]

theorem bitsOn_lor {mask i : Nat} (hmem : i ∈ candidate_ids)
    (hb : mask.testBit i = false) :
    bitsOn (mask ||| 1 <<< i) = bitsOn mask + 1 := by
  have : (candidate_ids.filter (fun k => (mask ||| 1 <<< i).testBit k)) =
      (candidate_ids.filter (fun k => mask.testBit k || k == i)) := by
    apply List.filter_congr
    intro k _
    exact testBit_lor_one_shift mask i k
  unfold bitsOn
  rw [this]
  exact filter_length_orb candidate_ids (by decide) hmem hb

theorem fcl_congr {tbl p mask : Nat} {g₁ g₂ : Nat → Nat → List Nat} :
    ∀ cands : List Nat,
    (∀ i ∈ cands, mask.testBit i = false →
      g₁ i (mask ||| 1 <<< i) = g₂ i (mask ||| 1 <<< i)) →
    fc_loop g₁ tbl p mask cands = fc_loop g₂ tbl p mask cands := by
  intro cands
  induction cands with
  | nil => intro _; rfl
  | cons i rest ih =>
    intro h
    have hrest := ih (fun j hj => h j (List.mem_cons_of_mem i hj))
    cases htb : mask.testBit i with
    | true => simp [fc_loop, htb, hrest]
    | false =>
      cases hil : fast_illegal tbl p i mask with
      | true => simp [fc_loop, htb, hil, hrest]
      | false =>
        simp [fc_loop, htb, hil, hrest, h i (List.mem_cons_self i rest) htb]

theorem mask_even_bit0 {mask : Nat} (heven : mask % 2 = 0) :
    mask.testBit 0 = false := by
  rw [Nat.testBit_zero]
  simp
  omega

theorem table_entries : ∀ f : Nat,
    ∀ mask p : Nat, mask < 1024 → mask % 2 = 0 → p < 10 →
    (mask.testBit p || (p == 0 && mask == 0)) = true →
    f + bitsOn mask = 10 →
    lookupV pattern_count_table mask p = fast_counts tblN f p mask := by
  intro f
  induction f with
  | zero =>
    intro mask p _ _ _ _ hsum
    exact absurd hsum (by have := bitsOn_le mask; omega)
  | succ f ih =>
    intro mask p hlt heven hp hvalid hsum
    rw [table_fix mask hlt heven p hp hvalid]
    show _ = fc_loop (fast_counts tblN f) tblN p mask candidate_ids
    apply fcl_congr
    intro i hi htb
    have hi19 := cand_facts i hi
    have hlt2 : mask ||| 1 <<< i < 1024 := by
      have hp2 : (1 : Nat) <<< i < 1024 := by
        rw [Nat.one_shiftLeft]
        calc 2 ^ i ≤ 2 ^ 9 := Nat.pow_le_pow_right (by omega) hi19.2
        _ < 1024 := by omega
      exact Nat.or_lt_two_pow (n := 10) hlt hp2
    have heven2 : (mask ||| 1 <<< i) % 2 = 0 := by
      have h0 : (mask ||| 1 <<< i).testBit 0 = false := by
        rw [testBit_lor_one_shift]
        have hb0 := mask_even_bit0 heven
        have hi0 : ((0 : Nat) == i) = false :=
          beq_eq_false_iff_ne.mpr (by omega)
        rw [hb0, hi0]
        rfl
      rw [Nat.testBit_zero] at h0
      have h1 := of_decide_eq_false h0
      omega
    have hvalid2 : ((mask ||| 1 <<< i).testBit i
        || (i == 0 && (mask ||| 1 <<< i) == 0)) = true := by
      rw [testBit_lor_one_shift]
      simp
    have hsum2 : f + bitsOn (mask ||| 1 <<< i) = 10 := by
      rw [bitsOn_lor hi htb]
      omega
    exact ih (mask ||| 1 <<< i) i hlt2 heven2 (by omega) hvalid2 hsum2

theorem fast_counts_root :
    fast_counts tblN 10 0 0
      = [9, 56, 320, 1624, 7152, 26016, 72912, 140704, 140704] := by
  have h := table_entries 10 0 0 (by omega) (by omega) (by omega) (by decide)
    (by show 10 + bitsOn 0 = 10; unfold bitsOn; decide)
  rw [← h]
  decide

theorem getD_set_ne : ∀ (l : List Nat) (k j v : Nat), k ≠ j →
    (l.set k v).getD j 0 = l.getD j 0 := by
  intro l
  induction l with
  | nil => intro k j v _; rfl
  | cons a rest ih =>
    intro k j v hne
    cases k with
    | zero =>
      cases j with
      | zero => exact absurd rfl hne
      | succ j2 => rfl
    | succ k2 =>
      cases j with
      | zero => rfl
      | succ j2 => exact ih k2 j2 v (by omega)

theorem set_getD_zero : ∀ (l : List Nat) (k : Nat), l.getD k 0 = 0 →
    l.set k 0 = l := by
  intro l
  induction l with
  | nil => intro k _; rfl
  | cons a rest ih =>
    intro k h
    cases k with
    | zero =>
      simp only [List.getD, List.get?, Option.getD] at h
      simp [List.set, h]
    | succ k2 => simp only [List.set]; rw [ih k2 h]

theorem take_set_succ : ∀ (l : List Nat) (k v : Nat), k < l.length →
    (l.set k v).take (k + 1) = l.take k ++ [v] := by
  intro l
  induction l with
  | nil => intro k v h; simp at h
  | cons a rest ih =>
    intro k v h
    cases k with
    | zero => rfl
    | succ k2 =>
      have h2 : k2 < rest.length := by simpa using h
      simp only [List.set, List.take, List.cons_append]
      rw [ih k2 v h2]

theorem add_subnodes_state_loop {M : List (List Int)} (fuel : Nat)
    (ihf : ∀ p lvl s, (∀ j, lvl ≤ j → s.getD j 0 = 0) →
      (add_subnodes fuel p lvl M s).2 = s) :
    ∀ (cands : List Nat) (p level : Nat) (s : List Nat),
    (∀ j, level ≤ j → s.getD j 0 = 0) →
    (add_subnodes_loop (fun i lvl t => add_subnodes fuel i lvl M t)
      p level M cands s).2 = s := by
  intro cands
  induction cands with
  | nil => intro p level s _; rfl
  | cons i rest ih =>
    intro p level s h
    by_cases hc : (id_on_branch i s level
        || illegal_transition p i s level M) = true
    · simp only [add_subnodes_loop, hc, if_true]
      exact ih p level s h
    · have hc2 := eq_false_of_ne_true hc
      simp only [add_subnodes_loop, hc2, Bool.false_eq_true, if_false]
      have hz1 : ∀ j, level + 1 ≤ j → ((s.set level i).getD j 0) = 0 := by
        intro j hj
        rw [getD_set_ne s level j i (by omega)]
        exact h j (by omega)
      rw [ihf i (level + 1) (s.set level i) hz1, List.set_set,
        set_getD_zero s level (h level (Nat.le_refl level))]
      exact ih p level s h

theorem add_subnodes_state {M : List (List Int)} :
    ∀ (fuel : Nat) (p level : Nat) (s : List Nat),
    (∀ j, level ≤ j → s.getD j 0 = 0) →
    (add_subnodes fuel p level M s).2 = s := by
  intro fuel
  induction fuel with
  | zero => intro p level s _; rfl
  | succ f ih =>
    intro p level s h
    simp only [add_subnodes]
    exact add_subnodes_state_loop f ih candidate_ids p level s h

theorem decide_eq_comm (x i : Nat) : (decide (x = i)) = (i == x) := by
  by_cases h : x = i
  · subst h; simp
  · have h2 : (i == x) = false := beq_eq_false_iff_ne.mpr (Ne.symm h)
    simp [h, h2]

theorem int_beq_cast (b x : Nat) : (Int.ofNat b == (x : Int)) = (b == x) := by
  rw [Bool.eq_iff_iff]
  simp [beq_iff_eq, Int.ofNat_eq_natCast]

theorem int_beq_zero (b : Nat) : (Int.ofNat b == (0 : Int)) = (b == 0) := by
  rw [Bool.eq_iff_iff]
  simp [beq_iff_eq, Int.ofNat_eq_natCast]

theorem int_beq_neg_one (b : Nat) : (Int.ofNat b == (-1 : Int)) = false := by
  rw [Bool.eq_iff_iff]
  simp [beq_iff_eq, Int.ofNat_eq_natCast]

theorem id_on_branch_elem : ∀ (s : List Nat) (level i : Nat),
    id_on_branch i s level = (s.take level).elem i := by
  intro s
  induction s with
  | nil => intro level i; cases level <;> rfl
  | cons x xs ih =>
    intro level i
    cases level with
    | zero => rfl
    | succ l =>
      show (i == x || id_on_branch i xs l) = (x :: xs.take l).elem i
      rw [ih l i]
      rfl

theorem mask_of_elem : ∀ (l : List Nat) (i : Nat),
    (mask_of l).testBit i = l.elem i := by
  intro l
  induction l with
  | nil => intro i; simp [mask_of, Nat.zero_testBit]
  | cons x xs ih =>
    intro i
    show ((1 <<< x) ||| mask_of xs).testBit i = (x :: xs).elem i
    rw [Nat.testBit_lor, Nat.one_shiftLeft, Nat.testBit_two_pow, ih i,
      decide_eq_comm]
    rfl

theorem mask_of_append : ∀ (l : List Nat) (i : Nat),
    mask_of (l ++ [i]) = mask_of l ||| 1 <<< i := by
  intro l
  induction l with
  | nil =>
    intro i
    show (1 <<< i) ||| 0 = 0 ||| 1 <<< i
    rw [Nat.lor_comm]
  | cons x xs ih =>
    intro i
    show (1 <<< x) ||| mask_of (xs ++ [i]) = ((1 <<< x) ||| mask_of xs) ||| 1 <<< i
    rw [ih i, Nat.lor_assoc]

theorem blocker_on_branch_eq : ∀ (s : List Nat) (level b : Nat),
    blocker_on_branch (Int.ofNat b) s level = id_on_branch b s level := by
  intro s
  induction s with
  | nil => intro level b; cases level <;> rfl
  | cons x xs ih =>
    intro level b
    cases level with
    | zero => rfl
    | succ l =>
      show (Int.ofNat b == (x : Int) || blocker_on_branch (Int.ofNat b) xs l)
        = (b == x || id_on_branch b xs l)
      rw [ih l b, int_beq_cast]

theorem illegal_transition_eq (M : List (List Int)) (tbl : Nat)
    (HM : ∀ p i, p < 10 → i < 10 →
      mget M p i = Int.ofNat (tbl_at tbl p i) ∧ tbl_at tbl p i ≤ 9)
    (p i : Nat) (s : List Nat) (level : Nat) (hp : p < 10) (hi : i < 10) :
    illegal_transition p i s level M
      = fast_illegal tbl p i (mask_of (s.take level)) := by
  obtain ⟨hmg, _⟩ := HM p i hp hi
  show (if mget M p i == 0 then false
    else if mget M p i == -1 then true
    else !(blocker_on_branch (mget M p i) s level))
    = fast_illegal tbl p i (mask_of (s.take level))
  rw [hmg, int_beq_zero, int_beq_neg_one]
  by_cases hb0 : tbl_at tbl p i = 0
  · have h2 : (tbl_at tbl p i == 0) = true := beq_iff_eq.mpr hb0
    rw [h2, if_pos rfl, fast_illegal, h2]
    rfl
  · have h2 : (tbl_at tbl p i == 0) = false := beq_eq_false_iff_ne.mpr hb0
    rw [h2, if_neg Bool.false_ne_true, if_neg Bool.false_ne_true,
      blocker_on_branch_eq, id_on_branch_elem, ← mask_of_elem, fast_illegal, h2]
    rfl

theorem branch_mem_Icc (l : List Nat) (h9 : ∀ x ∈ l, 1 ≤ x ∧ x ≤ 9) :
    l.toFinset ⊆ Finset.Icc 1 9 := by
  intro x hx
  have := h9 x (List.mem_toFinset.mp hx)
  exact Finset.mem_Icc.mpr this

theorem full_branch_mem (l : List Nat) (hnd : l.Nodup) (hlen : l.length = 9)
    (h9 : ∀ x ∈ l, 1 ≤ x ∧ x ≤ 9) : ∀ i, 1 ≤ i → i ≤ 9 → i ∈ l := by
  intro i h1 h2
  have hsub := branch_mem_Icc l h9
  have hcard : l.toFinset.card = 9 := by
    rw [List.toFinset_card_of_nodup hnd, hlen]
  have hIcc : (Finset.Icc 1 9 : Finset Nat).card = 9 := by
    rw [Nat.card_Icc]
  have heq : l.toFinset = Finset.Icc 1 9 :=
    Finset.eq_of_subset_of_card_le hsub (by omega)
  have : i ∈ l.toFinset := by
    rw [heq]
    exact Finset.mem_Icc.mpr ⟨h1, h2⟩
  exact List.mem_toFinset.mp this

theorem cveq_loop (M : List (List Int)) (tbl : Nat)
    (HM : ∀ p i, p < 10 → i < 10 →
      mget M p i = Int.ofNat (tbl_at tbl p i) ∧ tbl_at tbl p i ≤ 9)
    (fuel : Nat)
    (ihf : ∀ p lvl s, p ≤ 9 → lvl ≤ 9 → s.length = 9 →
      (∀ j, lvl ≤ j → s.getD j 0 = 0) →
      (∀ x ∈ s.take lvl, 1 ≤ x ∧ x ≤ 9) → (s.take lvl).Nodup →
      cvF (add_subnodes fuel p lvl M s).1
        = fast_counts tbl fuel p (mask_of (s.take lvl))) :
    ∀ (cands : List Nat) (p level : Nat) (s : List Nat),
    p ≤ 9 → level ≤ 9 → s.length = 9 →
    (∀ j, level ≤ j → s.getD j 0 = 0) →
    (∀ x ∈ s.take level, 1 ≤ x ∧ x ≤ 9) → (s.take level).Nodup →
    (∀ x ∈ cands, 1 ≤ x ∧ x ≤ 9) →
    cvF (add_subnodes_loop (fun i lvl t => add_subnodes fuel i lvl M t)
        p level M cands s).1
      = fc_loop (fast_counts tbl fuel) tbl p (mask_of (s.take level)) cands := by
  intro cands
  induction cands with
  | nil => intro p level s _ _ _ _ _ _ _; rfl
  | cons i rest ih =>
    intro p level s hp hlvl hlen hz h19 hnd hcands
    have hi := hcands i (List.mem_cons_self i rest)
    have hcands2 := fun x hx => hcands x (List.mem_cons_of_mem i hx)
    have hcond : (id_on_branch i s level || illegal_transition p i s level M)
        = ((mask_of (s.take level)).testBit i
            || fast_illegal tbl p i (mask_of (s.take level))) := by
      rw [id_on_branch_elem, ← mask_of_elem,
        illegal_transition_eq M tbl HM p i s level (by omega) (by omega)]
    by_cases hc : ((mask_of (s.take level)).testBit i
        || fast_illegal tbl p i (mask_of (s.take level))) = true
    · rw [show (add_subnodes_loop (fun i lvl t => add_subnodes fuel i lvl M t)
          p level M (i :: rest) s)
          = add_subnodes_loop (fun i lvl t => add_subnodes fuel i lvl M t)
            p level M rest s from by
        simp only [add_subnodes_loop, hcond, hc, if_true]]
      rw [ih p level s hp hlvl hlen hz h19 hnd hcands2]
      rw [show fc_loop (fast_counts tbl fuel) tbl p (mask_of (s.take level))
          (i :: rest)
          = fc_loop (fast_counts tbl fuel) tbl p (mask_of (s.take level)) rest
        from by simp only [fc_loop, hc, if_true]]
    · have hc2 := eq_false_of_ne_true hc
      have hnotmem : i ∉ s.take level := by
        intro hmem
        have : (mask_of (s.take level)).testBit i = true := by
          rw [mask_of_elem]
          exact List.elem_eq_true_of_mem hmem
        simp [this] at hc2
      have hlv : level < 9 := by
        rcases Nat.lt_or_ge level 9 with h | h
        · exact h
        · exfalso
          have hl9 : level = 9 := by omega
          subst hl9
          have htl : (s.take 9).length = 9 := by
            rw [List.length_take, hlen]
            exact Nat.min_self 9
          exact hnotmem (full_branch_mem (s.take 9) hnd htl h19 i hi.1 hi.2)
      have htake : (s.set level i).take (level + 1) = s.take level ++ [i] :=
        take_set_succ s level i (by omega)
      have hz1 : ∀ j, level + 1 ≤ j → ((s.set level i).getD j 0) = 0 := by
        intro j hj
        rw [getD_set_ne s level j i (by omega)]
        exact hz j (by omega)
      have h19' : ∀ x ∈ (s.set level i).take (level + 1), 1 ≤ x ∧ x ≤ 9 := by
        rw [htake]
        intro x hx
        rcases List.mem_append.mp hx with hx1 | hx2
        · exact h19 x hx1
        · rw [List.mem_singleton.mp hx2]
          exact hi
      have hnd' : ((s.set level i).take (level + 1)).Nodup := by
        rw [htake, List.nodup_append]
        refine ⟨hnd, List.nodup_singleton i, ?_⟩
        intro a ha hb
        rw [List.mem_singleton.mp hb] at ha
        exact hnotmem ha
      have hrec := ihf i (level + 1) (s.set level i) hi.2 (by omega)
        (by rw [List.length_set]; exact hlen) hz1 h19' hnd'
      rw [htake, mask_of_append] at hrec
      have hstate : (add_subnodes fuel i (level + 1) M (s.set level i)).2
          = s.set level i := add_subnodes_state fuel i (level + 1) (s.set level i) hz1
      have hs3 : ((add_subnodes fuel i (level + 1) M (s.set level i)).2).set level 0
          = s := by
        rw [hstate, List.set_set, set_getD_zero s level (hz level (Nat.le_refl level))]
      have hrest := ih p level s hp hlvl hlen hz h19 hnd hcands2
      rw [show (add_subnodes_loop (fun i lvl t => add_subnodes fuel i lvl M t)
          p level M (i :: rest) s)
          = (TreeNode.node i
              (add_subnodes fuel i (level + 1) M (s.set level i)).1
            :: (add_subnodes_loop (fun i lvl t => add_subnodes fuel i lvl M t)
              p level M rest s).1,
            (add_subnodes_loop (fun i lvl t => add_subnodes fuel i lvl M t)
              p level M rest s).2) from by
        simp only [add_subnodes_loop, hcond, hc2, Bool.false_eq_true, if_false, hs3]]
      rw [show fc_loop (fast_counts tbl fuel) tbl p (mask_of (s.take level))
          (i :: rest)
          = vadd (1 :: fast_counts tbl fuel i (mask_of (s.take level) ||| 1 <<< i))
            (fc_loop (fast_counts tbl fuel) tbl p (mask_of (s.take level)) rest)
        from by simp only [fc_loop, hc2, Bool.false_eq_true, if_false]]
      show vadd (1 :: cvF (add_subnodes fuel i (level + 1) M (s.set level i)).1) _
        = _
      rw [hrec, hrest]

theorem cveq_subnodes (M : List (List Int)) (tbl : Nat)
    (HM : ∀ p i, p < 10 → i < 10 →
      mget M p i = Int.ofNat (tbl_at tbl p i) ∧ tbl_at tbl p i ≤ 9) :
    ∀ (fuel : Nat) (p lvl : Nat) (s : List Nat),
    p ≤ 9 → lvl ≤ 9 → s.length = 9 →
    (∀ j, lvl ≤ j → s.getD j 0 = 0) →
    (∀ x ∈ s.take lvl, 1 ≤ x ∧ x ≤ 9) → (s.take lvl).Nodup →
    cvF (add_subnodes fuel p lvl M s).1
      = fast_counts tbl fuel p (mask_of (s.take lvl)) := by
  intro fuel
  induction fuel with
  | zero => intro p lvl s _ _ _ _ _ _; rfl
  | succ f ih =>
    intro p lvl s hp hlvl hlen hz h19 hnd
    show cvF (add_subnodes_loop (fun i l t => add_subnodes f i l M t)
        p lvl M candidate_ids s).1 = _
    rw [cveq_loop M tbl HM f ih candidate_ids p lvl s hp hlvl hlen hz h19 hnd
      (by decide)]
    rfl

theorem addInto_addInto : ∀ (counts a b : List Nat),
    addInto (addInto counts a) b = addInto counts (vadd a b) := by
  intro counts
  induction counts with
  | nil =>
    intro a b
    cases a <;> cases b <;> rfl
  | cons c cs ih =>
    intro a b
    cases a with
    | nil => cases b <;> rfl
    | cons x xs =>
      cases b with
      | nil => rfl
      | cons y ys =>
        show (c + x + y) :: addInto (addInto cs xs) ys
          = (c + (x + y)) :: addInto cs (vadd xs ys)
        rw [ih xs ys, Nat.add_assoc]

theorem overlay_overlay : ∀ (counts : List Nat) (level : Nat) (a b : List Nat),
    overlay (overlay counts level a) level b = overlay counts level (vadd a b) := by
  intro counts
  induction counts with
  | nil =>
    intro level a b
    cases level with
    | zero => simp only [overlay]; exact addInto_addInto [] a b
    | succ l => rfl
  | cons c cs ih =>
    intro level a b
    cases level with
    | zero => simp only [overlay]; exact addInto_addInto (c :: cs) a b
    | succ l =>
      show c :: overlay (overlay cs l a) l b = c :: overlay cs l (vadd a b)
      rw [ih l a b]

theorem overlay_set_succ : ∀ (counts : List Nat) (level : Nat) (u : List Nat),
    overlay (counts.set level (counts.getD level 0 + 1)) (level + 1) u
      = overlay counts level (1 :: u) := by
  intro counts
  induction counts with
  | nil =>
    intro level u
    cases level <;> rfl
  | cons c cs ih =>
    intro level u
    cases level with
    | zero => simp [overlay, addInto, List.getD]
    | succ l =>
      show c :: overlay (cs.set l (cs.getD l 0 + 1)) (l + 1) u
        = c :: overlay cs l (1 :: u)
      rw [ih l u]

mutual

theorem count_valid_patterns_overlay : ∀ (t : TreeNode) (counts : List Nat)
    (level : Nat),
    count_valid_patterns t counts level = overlay counts level (cv t)
  | .node nid cs, counts, level => by
    show count_patterns_loop cs counts level = overlay counts level (cvF cs)
    exact count_patterns_loop_overlay cs counts level

theorem count_patterns_loop_overlay : ∀ (cs : List TreeNode) (counts : List Nat)
    (level : Nat),
    count_patterns_loop cs counts level = overlay counts level (cvF cs)
  | [], counts, level => by
    show counts = overlay counts level []
    clear count_valid_patterns_overlay count_patterns_loop_overlay
    induction counts generalizing level with
    | nil => cases level <;> rfl
    | cons c cs2 ih =>
      cases level with
      | zero => rfl
      | succ l => show c :: cs2 = c :: overlay cs2 l []; rw [← ih l]
  | c :: rest, counts, level => by
    show count_patterns_loop rest
        (count_valid_patterns c
          (counts.set level (counts.getD level 0 + 1)) (level + 1)) level
      = overlay counts level (vadd (1 :: cv c) (cvF rest))
    rw [count_patterns_loop_overlay rest _ level,
      count_valid_patterns_overlay c _ (level + 1),
      overlay_set_succ counts level (cv c),
      overlay_overlay counts level (1 :: cv c) (cvF rest)]

end

theorem getD_replicate_zero : ∀ (n j : Nat),
    (List.replicate n (0 : Nat)).getD j 0 = 0 := by
  intro n
  induction n with
  | zero => intro j; cases j <;> rfl
  | succ m ih =>
    intro j
    cases j with
    | zero => rfl
    | succ j2 => exact ih j2

theorem HM_full : ∀ p : Nat, p < 10 → ∀ i : Nat, i < 10 →
    mget pattern_block_matrix p i = Int.ofNat (tbl_at tblN p i)
      ∧ tbl_at tblN p i ≤ 9 := by decide

theorem cv_full_forest :
    cvF (add_subnodes 10 0 0 pattern_block_matrix node_ids0).1
      = [9, 56, 320, 1624, 7152, 26016, 72912, 140704, 140704] := by
  have h := cveq_subnodes pattern_block_matrix tblN
    (fun p i hp hi => HM_full p hp i hi) 10 0 0 node_ids0
    (by omega) (by omega) (by simp [node_ids0, MAX_POINTS])
    (fun j _ => getD_replicate_zero 9 j)
    (by simp) (by simp)
  rw [h]
  exact fast_counts_root

theorem count_by_length_full :
    count_by_length (pattern_root pattern_block_matrix)
      = [9, 56, 320, 1624, 7152, 26016, 72912, 140704, 140704] := by
  show count_valid_patterns
    (TreeNode.node 0 (add_subnodes 10 0 0 pattern_block_matrix node_ids0).1)
    (List.replicate MAX_POINTS 0) 0 = _
  rw [count_valid_patterns_overlay]
  show overlay (List.replicate MAX_POINTS 0) 0
    (cvF (add_subnodes 10 0 0 pattern_block_matrix node_ids0).1) = _
  rw [cv_full_forest]
  decide

/-- Claim C1 (amended totals): counting the tree built from the unrestricted
blocking table yields, for depths 1 through 9, exactly the counts
9, 56, 320, 1624, 7152, 26016, 72912, 140704, 140704; their sum is 389497
and the sum over depths 4 through 9 is 389112. -/
theorem claim_C1 :
    count_by_length (pattern_root pattern_block_matrix)
      = [9, 56, 320, 1624, 7152, 26016, 72912, 140704, 140704]
    ∧ (count_by_length (pattern_root pattern_block_matrix)).sum = 389497
    ∧ ((count_by_length (pattern_root pattern_block_matrix)).drop 3).sum
        = 389112 := by
  refine ⟨count_by_length_full, ?_, ?_⟩ <;> rw [count_by_length_full] <;> decide

/-- Claim C1, as stated, is false: its own per-length counts sum to 389497,
not 389112, and the lengths-4-to-9 subtotal is 389112, not 387936. -/
theorem claim_C1_counterexample :
    ¬(count_by_length (pattern_root pattern_block_matrix)
        = [9, 56, 320, 1624, 7152, 26016, 72912, 140704, 140704]
      ∧ (count_by_length (pattern_root pattern_block_matrix)).sum = 389112
      ∧ ((count_by_length (pattern_root pattern_block_matrix)).drop 3).sum
          = 387936) := by
  intro h
  rcases h with ⟨h1, h2, _⟩
  rw [h1] at h2
  exact absurd h2 (by decide)

theorem blocker_on_branch_mem : ∀ (b : Int) (s : List Nat) (lvl : Nat),
    blocker_on_branch b s lvl = true
      ↔ b ∈ (s.take lvl).map (fun n => (n : Int)) := by
  intro b s
  induction s with
  | nil => intro lvl; cases lvl <;> simp [blocker_on_branch]
  | cons x xs ih =>
    intro lvl
    cases lvl with
    | zero => simp [blocker_on_branch]
    | succ l =>
      show (b == (x : Int) || blocker_on_branch b xs l) = true ↔ _
      simp [List.mem_cons, Bool.or_eq_true, beq_iff_eq, ih l]

/-- Claim C2: the transition test declares parent->candidate legal when the
blocking entry is NONE (0); illegal when it is DISABLED (-1); and when it is
any other value P, legal exactly when P occurs among the first `level` ids
of the branch array, i.e. the points already used on the path. -/
theorem claim_C2 (M : List (List Int)) (p c : Nat) (ids : List Nat)
    (lvl : Nat) :
    (mget M p c = 0 → illegal_transition p c ids lvl M = false)
    ∧ (mget M p c = -1 → illegal_transition p c ids lvl M = true)
    ∧ (mget M p c ≠ 0 → mget M p c ≠ -1 →
        (illegal_transition p c ids lvl M = false
          ↔ mget M p c ∈ (ids.take lvl).map (fun n => (n : Int)))) := by
  refine ⟨?_, ?_, ?_⟩
  · intro h
    simp [illegal_transition, h]
  · intro h
    simp [illegal_transition, h]
  · intro h0 h1
    have e0 : (mget M p c == (0 : Int)) = false := beq_eq_false_iff_ne.mpr h0
    have e1 : (mget M p c == (-1 : Int)) = false := beq_eq_false_iff_ne.mpr h1
    show (if mget M p c == 0 then false
      else if mget M p c == -1 then true
      else !(blocker_on_branch (mget M p c) ids lvl)) = false ↔ _
    rw [e0, if_neg Bool.false_ne_true, e1, if_neg Bool.false_ne_true,
      ← blocker_on_branch_mem (mget M p c) ids lvl]
    cases hb : blocker_on_branch (mget M p c) ids lvl <;> simp [hb]

/-- Witness for claim C2: in the unrestricted table the 1->3 transition is
blocked by 2, and with 2 already on the branch the transition is legal. -/
theorem claim_C2_witness :
    mget pattern_block_matrix 1 3 ≠ 0 ∧ mget pattern_block_matrix 1 3 ≠ -1
    ∧ illegal_transition 1 3 [2] 1 pattern_block_matrix = false :=
  ⟨by decide, by decide,
    ((claim_C2 pattern_block_matrix 1 3 [2] 1).2.2 (by decide)
      (by decide)).mpr (by decide)⟩

/-- Claim C8: for distinct points in [1, 9] the blocking entry is exactly
the grid midpoint when that midpoint is a grid point and NONE otherwise,
and the table is symmetric. -/
theorem claim_C8 : ∀ a ∈ candidate_ids, ∀ b ∈ candidate_ids, a ≠ b →
    mget pattern_block_matrix a b = midpoint_blocker a b
    ∧ mget pattern_block_matrix a b = mget pattern_block_matrix b a := by
  decide

/-- Witness for claim C8: the 1->3 transition is blocked by the midpoint 2,
symmetrically with 3->1. -/
theorem claim_C8_witness :
    (1 : Nat) ∈ candidate_ids ∧ (3 : Nat) ∈ candidate_ids
    ∧ (mget pattern_block_matrix 1 3 = midpoint_blocker 1 3
        ∧ mget pattern_block_matrix 1 3 = mget pattern_block_matrix 3 1) :=
  ⟨by decide, by decide,
    claim_C8 1 (by decide) 3 (by decide) (by decide)⟩

/-- Claim C9: building the tree twice in succession from any blocking
table, with the static branch array carried over from the first call,
yields identical results: the first call restores the array to all zeros,
so the second call is the same call, with identical trees and identical
per-length counts. -/
theorem claim_C9 (M : List (List Int)) :
    (add_subnodes 10 0 0 M node_ids0).2 = node_ids0
    ∧ add_subnodes 10 0 0 M ((add_subnodes 10 0 0 M node_ids0).2)
        = add_subnodes 10 0 0 M node_ids0
    ∧ count_by_length (TreeNode.node 0
          (add_subnodes 10 0 0 M ((add_subnodes 10 0 0 M node_ids0).2)).1)
        = count_by_length (pattern_root M) := by
  have h : (add_subnodes 10 0 0 M node_ids0).2 = node_ids0 :=
    add_subnodes_state 10 0 0 node_ids0 (fun j _ => getD_replicate_zero 9 j)
  refine ⟨h, ?_, ?_⟩
  · rw [h]
  · rw [h]
    rfl

set_option maxRecDepth 100000 in
/-- Claim C5, as stated, is false: restricting to the single point 5 gives
a root with one child, not zero. -/
theorem claim_C5_counterexample :
    ¬((pattern_root (fill_guess_matrix [53])).child_count = 0) := by
  decide

set_option maxRecDepth 100000 in
/-- Claim C5 (amended): restricting to node set {5} (node-list character
"5", code 53) yields a root with exactly one child, the point 5, which
itself has no children, so no pattern of length at least 2 exists and the
per-length counts are 1, 0, ..., 0. -/
theorem claim_C5 :
    pattern_root (fill_guess_matrix [53])
      = TreeNode.node 0 [TreeNode.node 5 []]
    ∧ count_by_length (pattern_root (fill_guess_matrix [53]))
        = [1, 0, 0, 0, 0, 0, 0, 0, 0] := by
  exact ⟨rfl, rfl⟩

theorem getD_set_self {α : Type} (d : α) :
    ∀ (l : List α) (k : Nat) (v : α), k < l.length →
    (l.set k v).getD k d = v := by
  intro l
  induction l with
  | nil => intro k v h; simp at h
  | cons x xs ih =>
    intro k v h
    cases k with
    | zero => rfl
    | succ k2 =>
      show (xs.set k2 v).getD k2 d = v
      exact ih k2 v (Nat.lt_of_succ_lt_succ h)

theorem getD_set_ne2 {α : Type} (d : α) :
    ∀ (l : List α) (k j : Nat) (v : α), k ≠ j →
    (l.set k v).getD j d = l.getD j d := by
  intro l
  induction l with
  | nil => intro k j v _; rfl
  | cons x xs ih =>
    intro k j v hne
    cases k with
    | zero =>
      cases j with
      | zero => exact absurd rfl hne
      | succ j2 => rfl
    | succ k2 =>
      cases j with
      | zero => rfl
      | succ j2 =>
        show (xs.set k2 v).getD j2 d = xs.getD j2 d
        exact ih k2 j2 v (fun h => hne (by rw [h]))

theorem getD_replicate {α : Type} (x d : α) :
    ∀ (n j : Nat), j < n → (List.replicate n x).getD j d = x := by
  intro n
  induction n with
  | zero => intro j h; simp at h
  | succ n2 ih =>
    intro j h
    cases j with
    | zero => rfl
    | succ j2 =>
      show (List.replicate n2 x).getD j2 d = x
      exact ih j2 (Nat.lt_of_succ_lt_succ h)

theorem parse_nodes_length : ∀ (ks nodes : List Nat),
    (parse_nodes ks nodes).length = nodes.length := by
  intro ks
  induction ks with
  | nil => intro nodes; rfl
  | cons c rest ih =>
    intro nodes
    show (parse_nodes (c :: rest) nodes).length = _
    rw [parse_nodes]
    by_cases h : 0 ≤ (c : Int) - 48 ∧ (c : Int) - 48 ≤ 9
    · rw [if_pos h, ih, List.length_set]
    · rw [if_neg h, ih]

theorem parse_nodes_getD : ∀ (ks : List Nat) (nodes : List Nat) (m : Nat),
    (∀ k ∈ ks, k ≤ 9) → nodes.length = 10 → m < 10 →
    (parse_nodes (ks.map (fun k => 48 + k)) nodes).getD m 0
      = if m ∈ ks then m else nodes.getD m 0 := by
  intro ks
  induction ks with
  | nil => intro nodes m _ _ _; simp [parse_nodes]
  | cons k rest ih =>
    intro nodes m hb hlen hm
    have hk9 : k ≤ 9 := hb k (List.mem_cons_self k rest)
    have hj : ((48 + k : Nat) : Int) - 48 = (k : Int) := by push_cast; ring
    show (parse_nodes ((48 + k) :: rest.map (fun k => 48 + k)) nodes).getD m 0 = _
    rw [parse_nodes, hj]
    rw [if_pos ⟨Int.natCast_nonneg k, by exact_mod_cast hk9⟩]
    rw [Int.toNat_natCast]
    rw [ih (nodes.set k k) m (fun x hx => hb x (List.mem_cons_of_mem k hx))
      (by rw [List.length_set]; exact hlen) hm]
    by_cases hmr : m ∈ rest
    · rw [if_pos hmr, if_pos (List.mem_cons_of_mem k hmr)]
    · rw [if_neg hmr]
      by_cases hmk : m = k
      · subst hmk
        rw [if_pos (List.mem_cons_self m rest)]
        exact getD_set_self 0 nodes m m (by omega)
      · rw [if_neg (by simp [List.mem_cons, hmk, hmr])]
        exact getD_set_ne2 0 nodes k m k (fun h => hmk (h.symm))

theorem guess_nodes_getD (mask m : Nat) (hm : m < 10) :
    (parse_nodes (mask_nodelist mask) (List.replicate 10 0)).getD m 0
      = if mask.testBit m then m else 0 := by
  show (parse_nodes (((List.range 10).filter
      (fun k => mask.testBit k)).map (fun k => 48 + k))
      (List.replicate 10 0)).getD m 0 = _
  rw [parse_nodes_getD ((List.range 10).filter (fun k => mask.testBit k))
    (List.replicate 10 0) m
    (fun k hk => by
      have := List.mem_range.mp (List.mem_of_mem_filter hk)
      omega)
    (by simp) hm]
  by_cases hbit : mask.testBit m
  · rw [if_pos (by simp [List.mem_filter, List.mem_range, hm, hbit]),
      if_pos hbit]
  · rw [if_neg (by simp [List.mem_filter, List.mem_range, hbit]),
      if_neg hbit]
    exact getD_replicate _ _ 10 m hm

theorem mget_mset (M : List (List Int)) (r c : Nat) (v : Int) (a b : Nat)
    (hr : r < M.length) (hc : c < (M.getD r []).length) :
    mget (mset M r c v) a b = if a = r ∧ b = c then v else mget M a b := by
  show ((M.set r ((M.getD r []).set c v)).getD a []).getD b 0 = _
  by_cases har : a = r
  · subst har
    rw [getD_set_self [] M a _ hr]
    by_cases hbc : b = c
    · subst hbc
      rw [getD_set_self 0 _ b v hc, if_pos ⟨rfl, rfl⟩]
    · rw [getD_set_ne2 0 _ c b v (fun h => hbc h.symm),
        if_neg (fun h => hbc h.2)]
      rfl
  · rw [getD_set_ne2 [] M r a _ (fun h => har h.symm),
      if_neg (fun h => har h.1)]
    rfl

theorem mset_shape (M : List (List Int)) (r c : Nat) (v : Int)
    (h1 : M.length = 10) (h2 : ∀ a, a < 10 → (M.getD a []).length = 10) :
    (mset M r c v).length = 10
    ∧ ∀ a, a < 10 → ((mset M r c v).getD a []).length = 10 := by
  constructor
  · show (M.set r _).length = 10
    rw [List.length_set]; exact h1
  · intro a ha
    show ((M.set r ((M.getD r []).set c v)).getD a []).length = 10
    by_cases har : a = r
    · subst har
      rw [getD_set_self [] M a _ (by omega), List.length_set]
      exact h2 a ha
    · rw [getD_set_ne2 [] M r a _ (fun h => har h.symm)]
      exact h2 a ha

theorem guess_inner (nodes : List Nat) (i : Nat) (hi : nodes.getD i 0 < 10) :
    ∀ (js : List Nat) (M : List (List Int)),
    M.length = 10 → (∀ a, a < 10 → (M.getD a []).length = 10) →
    (∀ j ∈ js, nodes.getD j 0 < 10) →
    (js.foldl (fun M2 j => mset M2 (nodes.getD i 0) (nodes.getD j 0)
        (mget pattern_block_matrix (nodes.getD i 0) (nodes.getD j 0))) M).length = 10
    ∧ (∀ a, a < 10 →
        ((js.foldl (fun M2 j => mset M2 (nodes.getD i 0) (nodes.getD j 0)
          (mget pattern_block_matrix (nodes.getD i 0) (nodes.getD j 0))) M).getD a []).length = 10)
    ∧ ∀ a b : Nat,
        mget (js.foldl (fun M2 j => mset M2 (nodes.getD i 0) (nodes.getD j 0)
          (mget pattern_block_matrix (nodes.getD i 0) (nodes.getD j 0))) M) a b
        = if a = nodes.getD i 0 ∧ ∃ j ∈ js, b = nodes.getD j 0
          then mget pattern_block_matrix a b else mget M a b := by
  intro js
  induction js with
  | nil =>
    intro M h1 h2 _
    refine ⟨h1, h2, ?_⟩
    intro a b
    rw [if_neg (by rintro ⟨_, j, hj, _⟩; exact (List.not_mem_nil j) hj)]
    rfl
  | cons j rest ih =>
    intro M h1 h2 hjs
    have hj0 : nodes.getD j 0 < 10 := hjs j (List.mem_cons_self j rest)
    have hsh := mset_shape M (nodes.getD i 0) (nodes.getD j 0)
      (mget pattern_block_matrix (nodes.getD i 0) (nodes.getD j 0)) h1 h2
    have step := ih (mset M (nodes.getD i 0) (nodes.getD j 0)
        (mget pattern_block_matrix (nodes.getD i 0) (nodes.getD j 0)))
      hsh.1 hsh.2 (fun x hx => hjs x (List.mem_cons_of_mem j hx))
    refine ⟨step.1, step.2.1, ?_⟩
    intro a b
    rw [List.foldl_cons, step.2.2 a b,
      mget_mset M _ _ _ a b (by omega) (by rw [h2 _ hi]; omega)]
    by_cases h3 : a = nodes.getD i 0 ∧ ∃ x ∈ rest, b = nodes.getD x 0
    · rw [if_pos h3, if_pos ⟨h3.1, by
        obtain ⟨x, hx, hb⟩ := h3.2
        exact ⟨x, List.mem_cons_of_mem j hx, hb⟩⟩]
    · rw [if_neg h3]
      by_cases h4 : a = nodes.getD i 0 ∧ b = nodes.getD j 0
      · rw [if_pos h4, if_pos ⟨h4.1, j, List.mem_cons_self j rest, h4.2⟩]
        rw [h4.1, h4.2]
      · rw [if_neg h4, if_neg (by
          rintro ⟨ha, x, hx, hb⟩
          rcases List.mem_cons.mp hx with hxj | hxr
          · exact h4 ⟨ha, by rw [hb, hxj]⟩
          · exact h3 ⟨ha, x, hxr, hb⟩)]

set_option maxHeartbeats 2000000 in
theorem guess_outer (nodes : List Nat) (hn : ∀ k, nodes.getD k 0 < 10) :
    ∀ (is2 : List Nat) (M : List (List Int)),
    M.length = 10 → (∀ a, a < 10 → (M.getD a []).length = 10) →
    (is2.foldl (fun M3 i => (List.range 10).foldl
        (fun M2 j => mset M2 (nodes.getD i 0) (nodes.getD j 0)
          (mget pattern_block_matrix (nodes.getD i 0) (nodes.getD j 0))) M3) M).length = 10
    ∧ (∀ a, a < 10 →
        ((is2.foldl (fun M3 i => (List.range 10).foldl
          (fun M2 j => mset M2 (nodes.getD i 0) (nodes.getD j 0)
            (mget pattern_block_matrix (nodes.getD i 0) (nodes.getD j 0))) M3) M).getD a []).length = 10)
    ∧ ∀ a b : Nat,
        mget (is2.foldl (fun M3 i => (List.range 10).foldl
          (fun M2 j => mset M2 (nodes.getD i 0) (nodes.getD j 0)
            (mget pattern_block_matrix (nodes.getD i 0) (nodes.getD j 0))) M3) M) a b
        = if (∃ i ∈ is2, a = nodes.getD i 0) ∧ (∃ j ∈ List.range 10, b = nodes.getD j 0)
          then mget pattern_block_matrix a b else mget M a b := by
  intro is2
  induction is2 with
  | nil =>
    intro M h1 h2
    refine ⟨h1, h2, ?_⟩
    intro a b
    rw [if_neg (by rintro ⟨⟨x, hx, _⟩, _⟩; exact (List.not_mem_nil x) hx)]
    rfl
  | cons i rest ih =>
    intro M h1 h2
    have hinner := guess_inner nodes i (hn i) (List.range 10) M h1 h2
      (fun j _ => hn j)
    have step := ih _ hinner.1 hinner.2.1
    refine ⟨step.1, step.2.1, ?_⟩
    intro a b
    rw [List.foldl_cons, step.2.2 a b, hinner.2.2 a b]
    by_cases h3 : (∃ x ∈ rest, a = nodes.getD x 0) ∧ ∃ j ∈ List.range 10, b = nodes.getD j 0
    · rw [if_pos h3, if_pos ⟨by
        obtain ⟨x, hx, hb⟩ := h3.1
        exact ⟨x, List.mem_cons_of_mem i hx, hb⟩, h3.2⟩]
    · rw [if_neg h3]
      by_cases h4 : a = nodes.getD i 0 ∧ ∃ j ∈ List.range 10, b = nodes.getD j 0
      · rw [if_pos h4, if_pos ⟨⟨i, List.mem_cons_self i rest, h4.1⟩, h4.2⟩]
      · rw [if_neg h4, if_neg (by
          rintro ⟨⟨x, hx, ha⟩, hbb⟩
          rcases List.mem_cons.mp hx with hxi | hxr
          · exact h4 ⟨by rw [ha, hxi], hbb⟩
          · exact h3 ⟨⟨x, hxr, ha⟩, hbb⟩)]

set_option maxHeartbeats 2000000 in
theorem fill_guess_value (mask : Nat) (a b : Nat) (ha : a < 10) (hb : b < 10) :
    mget (fill_guess_matrix (mask_nodelist mask)) a b
      = if ((a == 0) || mask.testBit a) && ((b == 0) || mask.testBit b)
        then mget pattern_block_matrix a b else -1 := by
  have hn : ∀ k, (parse_nodes (mask_nodelist mask) (List.replicate 10 0)).getD k 0 < 10 := by
    intro k
    by_cases hk : k < 10
    · rw [guess_nodes_getD mask k hk]
      by_cases hbit : mask.testBit k
      · rw [if_pos hbit]; omega
      · rw [if_neg hbit]; omega
    · rw [List.getD_eq_default _ _ (by
        rw [parse_nodes_length]
        simp
        omega)]
      omega
  have hinit1 : (List.replicate 10 (List.replicate 10 (-1 : Int))).length = 10 := by simp
  have hinit2 : ∀ x, x < 10 →
      ((List.replicate 10 (List.replicate 10 (-1 : Int))).getD x []).length = 10 := by
    intro x hx
    rw [getD_replicate _ _ 10 x hx]
    simp
  have h := guess_outer (parse_nodes (mask_nodelist mask) (List.replicate 10 0)) hn
    (List.range 10) (List.replicate 10 (List.replicate 10 (-1 : Int))) hinit1 hinit2
  show mget ((List.range 10).foldl
      (fun M3 i => (List.range 10).foldl
        (fun M2 j => mset M2
          ((parse_nodes (mask_nodelist mask) (List.replicate 10 0)).getD i 0)
          ((parse_nodes (mask_nodelist mask) (List.replicate 10 0)).getD j 0)
          (mget pattern_block_matrix
            ((parse_nodes (mask_nodelist mask) (List.replicate 10 0)).getD i 0)
            ((parse_nodes (mask_nodelist mask) (List.replicate 10 0)).getD j 0))) M3)
      (List.replicate 10 (List.replicate 10 (-1 : Int)))) a b = _
  rw [h.2.2 a b]
  have hsel : ∀ m : Nat, m < 10 →
      ((∃ i ∈ List.range 10,
        m = (parse_nodes (mask_nodelist mask) (List.replicate 10 0)).getD i 0)
       ↔ ((m == 0) || mask.testBit m) = true) := by
    intro m hm
    constructor
    · rintro ⟨i, hi, rfl⟩
      have hi10 := List.mem_range.mp hi
      rw [guess_nodes_getD mask i hi10]
      by_cases hbit : mask.testBit i
      · rw [if_pos hbit]
        simp [hbit]
      · rw [if_neg hbit]
        simp
    · intro hs
      rcases Bool.or_eq_true_iff.mp hs with hz | hbit
      · refine ⟨0, List.mem_range.mpr (by omega), ?_⟩
        rw [guess_nodes_getD mask 0 (by omega)]
        have hm0 : m = 0 := by simpa using hz
        rw [hm0]
        exact (ite_self 0).symm
      · refine ⟨m, List.mem_range.mpr hm, ?_⟩
        rw [guess_nodes_getD mask m hm, if_pos hbit]
  have hminit : mget (List.replicate 10 (List.replicate 10 (-1 : Int))) a b = -1 := by
    show ((List.replicate 10 (List.replicate 10 (-1 : Int))).getD a []).getD b 0 = -1
    rw [getD_replicate _ _ 10 a ha, getD_replicate _ _ 10 b hb]
  by_cases hc : (((a == 0) || mask.testBit a) && ((b == 0) || mask.testBit b)) = true
  · rw [if_pos hc]
    have hca := (Bool.and_eq_true _ _).mp hc
    rw [if_pos ⟨(hsel a ha).mpr hca.1, (hsel b hb).mpr hca.2⟩]
  · rw [if_neg hc, if_neg (by
      rintro ⟨hA, hB⟩
      exact hc ((Bool.and_eq_true _ _).mpr
        ⟨(hsel a ha).mp hA, (hsel b hb).mp hB⟩)), hminit]

theorem fill_guess_shape (mask : Nat) :
    (fill_guess_matrix (mask_nodelist mask)).length = 10
    ∧ ∀ x, x < 10 → ((fill_guess_matrix (mask_nodelist mask)).getD x []).length = 10 := by
  have hn : ∀ k, (parse_nodes (mask_nodelist mask) (List.replicate 10 0)).getD k 0 < 10 := by
    intro k
    by_cases hk : k < 10
    · rw [guess_nodes_getD mask k hk]
      by_cases hbit : mask.testBit k
      · rw [if_pos hbit]; omega
      · rw [if_neg hbit]; omega
    · rw [List.getD_eq_default _ _ (by
        rw [parse_nodes_length]
        simp
        omega)]
      omega
  have h := guess_outer (parse_nodes (mask_nodelist mask) (List.replicate 10 0)) hn
    (List.range 10) (List.replicate 10 (List.replicate 10 (-1 : Int)))
    (by simp) (by
      intro x hx
      rw [getD_replicate _ _ 10 x hx]
      simp)
  exact ⟨h.1, h.2.1⟩

theorem table_ext (M : List (List Int)) (g : Nat → Nat → Int)
    (h1 : M.length = 10) (h2 : ∀ x, x < 10 → (M.getD x []).length = 10)
    (h3 : ∀ x, x < 10 → ∀ y, y < 10 → mget M x y = g x y) :
    M = (List.range 10).map (fun a => (List.range 10).map (fun b => g a b)) := by
  apply List.ext_getElem
  · simpa using h1
  · intro i hi hi2
    have hi10 : i < 10 := by simpa using hi2
    rw [List.getElem_map, List.getElem_range]
    apply List.ext_getElem
    · have hrow := h2 i hi10
      rw [List.getD_eq_getElem M [] hi] at hrow
      simpa using hrow
    · intro j hj hj2
      have hj10 : j < 10 := by simpa using hj2
      rw [List.getElem_map, List.getElem_range]
      have hval := h3 i hi10 j hj10
      rw [← hval]
      show M[i][j] = (M.getD i []).getD j 0
      rw [List.getD_eq_getElem M [] hi, List.getD_eq_getElem _ 0 hj]

theorem restricted_spec_true_form (mask : Nat) :
    restricted_table_spec mask true
      = (List.range 10).map (fun a => (List.range 10).map (fun b =>
          if ((a == 0) || mask.testBit a) && ((b == 0) || mask.testBit b)
          then mget pattern_block_matrix a b else -1)) := by
  show (List.range 10).map _ = _
  simp only [Bool.true_and]

set_option maxRecDepth 100000 in
/-- Claim C4, as stated, is false: for the allowed set {1,2,3} the code's
restricted table is not DISABLED at every ordered pair outside the allowed
set -- row and column 0 keep their base entries, because the unused slots
of the code's `nodes[]` array hold id 0 and the copy loop re-enables those
pairs. -/
theorem claim_C4_counterexample :
    ¬(fill_guess_matrix (mask_nodelist 14) = restricted_table_spec 14 false) := by
  decide

/-- Claim C4 (amended): for every allowed-points set (any set of digits,
passed to the code as the node list of its digit characters), the table
built by `fill_guess_matrix` equals the base table at every ordered pair
whose endpoints are each selected or equal to 0, and is DISABLED (-1) at
every other ordered pair; row and column 0 stay enabled because the unused
slots of the code's `nodes[]` array keep id 0.  In particular the direct
table comparison holds for the allowed set {1,2,3} (mask 14). -/
theorem claim_C4 :
    (∀ mask : Nat,
      fill_guess_matrix (mask_nodelist mask) = restricted_table_spec mask true)
    ∧ fill_guess_matrix (mask_nodelist 14) = restricted_table_spec 14 true := by
  have main : ∀ mask : Nat,
      fill_guess_matrix (mask_nodelist mask) = restricted_table_spec mask true := by
    intro mask
    rw [restricted_spec_true_form mask]
    exact table_ext _ _ (fill_guess_shape mask).1 (fill_guess_shape mask).2
      (fun a ha b hb => fill_guess_value mask a b ha hb)
  exact ⟨main, main 14⟩
theorem forestPaths_ne_nil : ∀ (cs : List TreeNode),
    ∀ π ∈ forestPaths cs, π ≠ [] := by
  intro cs
  induction cs with
  | nil => intro π hπ; simp [forestPaths] at hπ
  | cons c rest ih =>
    intro π hπ
    rw [show forestPaths (c :: rest)
      = ([c.id] :: (nodePaths c).map (fun p => c.id :: p)) ++ forestPaths rest
      from rfl] at hπ
    rcases List.mem_append.mp hπ with hA | hB
    · rcases List.mem_cons.mp hA with h1 | h2
      · rw [h1]; simp
      · obtain ⟨q, _, hq⟩ := List.mem_map.mp h2
        rw [← hq]; simp
    · exact ih π hB

theorem paths_loop (M : List (List Int)) (fuel : Nat)
    (ihf : ∀ p lvl s, lvl ≤ 9 → s.length = 9 →
      (∀ j, lvl ≤ j → s.getD j 0 = 0) →
      (∀ x ∈ s.take lvl, 1 ≤ x ∧ x ≤ 9) → (s.take lvl).Nodup →
      ∀ π ∈ forestPaths (add_subnodes fuel p lvl M s).1,
        ((s.take lvl) ++ π).Nodup ∧ (∀ x ∈ π, 1 ≤ x ∧ x ≤ 9)
        ∧ lvl + π.length ≤ 9) :
    ∀ (cands : List Nat) (p level : Nat) (s : List Nat),
    level ≤ 9 → s.length = 9 →
    (∀ j, level ≤ j → s.getD j 0 = 0) →
    (∀ x ∈ s.take level, 1 ≤ x ∧ x ≤ 9) → (s.take level).Nodup →
    (∀ x ∈ cands, 1 ≤ x ∧ x ≤ 9) →
    ∀ π ∈ forestPaths (add_subnodes_loop
        (fun i lvl t => add_subnodes fuel i lvl M t) p level M cands s).1,
      ((s.take level) ++ π).Nodup ∧ (∀ x ∈ π, 1 ≤ x ∧ x ≤ 9)
      ∧ level + π.length ≤ 9 := by
  intro cands
  induction cands with
  | nil =>
    intro p level s _ _ _ _ _ _ π hπ
    simp [add_subnodes_loop, forestPaths] at hπ
  | cons i rest ih =>
    intro p level s hlvl hlen hz h19 hnd hcands π hπ
    have hi := hcands i (List.mem_cons_self i rest)
    have hcands2 := fun x hx => hcands x (List.mem_cons_of_mem i hx)
    by_cases hc : (id_on_branch i s level || illegal_transition p i s level M) = true
    · rw [show (add_subnodes_loop (fun i lvl t => add_subnodes fuel i lvl M t)
          p level M (i :: rest) s)
          = add_subnodes_loop (fun i lvl t => add_subnodes fuel i lvl M t)
            p level M rest s from by
        simp only [add_subnodes_loop, hc, if_true]] at hπ
      exact ih p level s hlvl hlen hz h19 hnd hcands2 π hπ
    · have hc2 := eq_false_of_ne_true hc
      have hid : id_on_branch i s level = false := by
        cases ha : id_on_branch i s level
        · rfl
        · rw [ha] at hc2; simp at hc2
      have hnotmem : i ∉ s.take level := by
        intro hmem
        rw [id_on_branch_elem] at hid
        rw [List.elem_eq_true_of_mem hmem] at hid
        simp at hid
      have hlv : level < 9 := by
        rcases Nat.lt_or_ge level 9 with h | h
        · exact h
        · exfalso
          have hl9 : level = 9 := by omega
          subst hl9
          have htl : (s.take 9).length = 9 := by
            rw [List.length_take, hlen]
            exact Nat.min_self 9
          exact hnotmem (full_branch_mem (s.take 9) hnd htl h19 i hi.1 hi.2)
      have htake : (s.set level i).take (level + 1) = s.take level ++ [i] :=
        take_set_succ s level i (by omega)
      have hz1 : ∀ j, level + 1 ≤ j → ((s.set level i).getD j 0) = 0 := by
        intro j hj
        rw [getD_set_ne s level j i (by omega)]
        exact hz j (by omega)
      have h19' : ∀ x ∈ (s.set level i).take (level + 1), 1 ≤ x ∧ x ≤ 9 := by
        rw [htake]
        intro x hx
        rcases List.mem_append.mp hx with hx1 | hx2
        · exact h19 x hx1
        · rw [List.mem_singleton.mp hx2]
          exact hi
      have hnd' : ((s.set level i).take (level + 1)).Nodup := by
        rw [htake, List.nodup_append]
        refine ⟨hnd, List.nodup_singleton i, ?_⟩
        intro a ha hb
        rw [List.mem_singleton.mp hb] at ha
        exact hnotmem ha
      have hstate : (add_subnodes fuel i (level + 1) M (s.set level i)).2
          = s.set level i :=
        add_subnodes_state fuel i (level + 1) (s.set level i) hz1
      have hs3 : ((add_subnodes fuel i (level + 1) M (s.set level i)).2).set level 0
          = s := by
        rw [hstate, List.set_set, set_getD_zero s level (hz level (Nat.le_refl level))]
      rw [show (add_subnodes_loop (fun i lvl t => add_subnodes fuel i lvl M t)
          p level M (i :: rest) s)
          = (TreeNode.node i
              (add_subnodes fuel i (level + 1) M (s.set level i)).1
            :: (add_subnodes_loop (fun i lvl t => add_subnodes fuel i lvl M t)
              p level M rest s).1,
            (add_subnodes_loop (fun i lvl t => add_subnodes fuel i lvl M t)
              p level M rest s).2) from by
        simp only [add_subnodes_loop, hc2, Bool.false_eq_true, if_false, hs3]] at hπ
      rw [show forestPaths (TreeNode.node i
            (add_subnodes fuel i (level + 1) M (s.set level i)).1
          :: (add_subnodes_loop (fun i lvl t => add_subnodes fuel i lvl M t)
            p level M rest s).1)
          = ([i] :: (forestPaths
              (add_subnodes fuel i (level + 1) M (s.set level i)).1).map
                (fun q => i :: q))
            ++ forestPaths (add_subnodes_loop
              (fun i lvl t => add_subnodes fuel i lvl M t) p level M rest s).1
        from rfl] at hπ
      rcases List.mem_append.mp hπ with hA | hB
      · rcases List.mem_cons.mp hA with h1 | h2
        · subst h1
          rw [htake] at hnd'
          refine ⟨hnd', ?_, by simp only [List.length_singleton]; omega⟩
          intro x hx
          rw [List.mem_singleton.mp hx]
          exact hi
        · obtain ⟨q, hq, hqe⟩ := List.mem_map.mp h2
          have hrec := ihf i (level + 1) (s.set level i) (by omega)
            (by rw [List.length_set]; exact hlen) hz1 h19' hnd' q hq
          rw [htake] at hrec
          obtain ⟨hrnd, hrb, hrl⟩ := hrec
          subst hqe
          refine ⟨?_, ?_, ?_⟩
          · rw [← List.singleton_append, ← List.append_assoc]
            exact hrnd
          · intro x hx
            rcases List.mem_cons.mp hx with hx1 | hx2
            · rw [hx1]; exact hi
            · exact hrb x hx2
          · rw [List.length_cons]
            omega
      · exact ih p level s hlvl hlen hz h19 hnd hcands2 π hB

theorem paths_subnodes (M : List (List Int)) :
    ∀ (fuel : Nat) (p lvl : Nat) (s : List Nat),
    lvl ≤ 9 → s.length = 9 →
    (∀ j, lvl ≤ j → s.getD j 0 = 0) →
    (∀ x ∈ s.take lvl, 1 ≤ x ∧ x ≤ 9) → (s.take lvl).Nodup →
    ∀ π ∈ forestPaths (add_subnodes fuel p lvl M s).1,
      ((s.take lvl) ++ π).Nodup ∧ (∀ x ∈ π, 1 ≤ x ∧ x ≤ 9)
      ∧ lvl + π.length ≤ 9 := by
  intro fuel
  induction fuel with
  | zero =>
    intro p lvl s _ _ _ _ _ π hπ
    simp [add_subnodes, forestPaths] at hπ
  | succ f ih =>
    intro p lvl s hlvl hlen hz h19 hnd π hπ
    exact paths_loop M f ih candidate_ids p lvl s hlvl hlen hz h19 hnd
      (by decide) π hπ

/-- Claim C3: for every blocking table, every root-to-node path of the tree
built by `add_subnodes` repeats no point id, and has length between 1 and 9. -/
theorem claim_C3 (M : List (List Int)) :
    ∀ π ∈ nodePaths (pattern_root M),
      π.Nodup ∧ 1 ≤ π.length ∧ π.length ≤ 9 := by
  intro π hπ
  have hπ2 : π ∈ forestPaths (add_subnodes 10 0 0 M node_ids0).1 := hπ
  have h := paths_subnodes M 10 0 0 node_ids0 (by omega) (by simp [node_ids0, MAX_POINTS])
    (fun j _ => getD_replicate_zero 9 j)
    (by intro x hx; simp [node_ids0] at hx) (by simp [node_ids0]) π hπ2
  obtain ⟨hnodup, _, hlen⟩ := h
  refine ⟨?_, ?_, by omega⟩
  · simpa using hnodup
  · have hne := forestPaths_ne_nil _ π hπ2
    exact List.length_pos.mpr hne

set_option maxRecDepth 100000 in
/-- Witness for claim C3: the path [5] of the tree restricted to point 5. -/
theorem claim_C3_witness :
    [5] ∈ nodePaths (pattern_root (fill_guess_matrix [53]))
    ∧ ([5] : List Nat).Nodup ∧ 1 ≤ ([5] : List Nat).length
      ∧ ([5] : List Nat).length ≤ 9 :=
  ⟨by decide, claim_C3 (fill_guess_matrix [53]) [5] (by decide)⟩
theorem blocker_hop : ∀ p : Nat, p < 10 → ∀ i : Nat, i < 10 →
    tbl_at tblN p i = 0
    ∨ (1 ≤ tbl_at tblN p i ∧ tbl_at tblN p i ≤ 9
        ∧ tbl_at tblN p (tbl_at tblN p i) = 0) := by
  decide

theorem mem_candidate_ids : ∀ x : Nat, 1 ≤ x → x ≤ 9 → x ∈ candidate_ids := by
  intro x hx1 hx2
  show x ∈ [1, 2, 3, 4, 5, 6, 7, 8, 9]
  simp only [List.mem_cons]
  omega

theorem exists_accepted (p level : Nat) (s : List Nat) (hp : p ≤ 9)
    (hlvl : level ≤ 8) (hlen : s.length = 9)
    (h19 : ∀ x ∈ s.take level, 1 ≤ x ∧ x ≤ 9) (hnd : (s.take level).Nodup) :
    ∃ i ∈ candidate_ids,
      (id_on_branch i s level
        || illegal_transition p i s level pattern_block_matrix) = false := by
  have hlenpre : (s.take level).length = level := by
    rw [List.length_take, hlen]
    omega
  have hex : ∃ i0, 1 ≤ i0 ∧ i0 ≤ 9 ∧ i0 ∉ s.take level := by
    by_contra hcon
    push_neg at hcon
    have hsub : Finset.Icc 1 9 ⊆ (s.take level).toFinset := by
      intro x hx
      obtain ⟨hx1, hx2⟩ := Finset.mem_Icc.mp hx
      exact List.mem_toFinset.mpr (hcon x hx1 hx2)
    have hcard := Finset.card_le_card hsub
    rw [Nat.card_Icc] at hcard
    have hcard2 := (s.take level).toFinset_card_le
    omega
  obtain ⟨i0, h1, h2, hnm⟩ := hex
  have hcond : ∀ i, 1 ≤ i → i ≤ 9 →
      (id_on_branch i s level
        || illegal_transition p i s level pattern_block_matrix)
      = ((mask_of (s.take level)).testBit i
          || fast_illegal tblN p i (mask_of (s.take level))) := by
    intro i hi1 hi2
    rw [id_on_branch_elem, ← mask_of_elem,
      illegal_transition_eq pattern_block_matrix tblN
        (fun p i hp hi => HM_full p hp i hi) p i s level
        (by omega) (by omega)]
  have htb : ∀ x, x ∉ s.take level →
      (mask_of (s.take level)).testBit x = false := by
    intro x hx
    rw [mask_of_elem]
    cases he : (s.take level).elem x
    · rfl
    · exact absurd (List.mem_of_elem_eq_true he) hx
  have htbm : ∀ x, x ∈ s.take level →
      (mask_of (s.take level)).testBit x = true := by
    intro x hx
    rw [mask_of_elem]
    exact List.elem_eq_true_of_mem hx
  rcases blocker_hop p (by omega) i0 (by omega) with hb0 | ⟨hb1, hb9, hbz⟩
  · refine ⟨i0, mem_candidate_ids i0 h1 h2, ?_⟩
    rw [hcond i0 h1 h2, htb i0 hnm, Bool.false_or]
    show (!(tbl_at tblN p i0 == 0)
      && !((mask_of (s.take level)).testBit (tbl_at tblN p i0))) = false
    rw [show (tbl_at tblN p i0 == 0) = true from beq_iff_eq.mpr hb0]
    rfl
  · by_cases hbm : tbl_at tblN p i0 ∈ s.take level
    · refine ⟨i0, mem_candidate_ids i0 h1 h2, ?_⟩
      rw [hcond i0 h1 h2, htb i0 hnm, Bool.false_or]
      show (!(tbl_at tblN p i0 == 0)
        && !((mask_of (s.take level)).testBit (tbl_at tblN p i0))) = false
      rw [htbm _ hbm]
      simp
    · refine ⟨tbl_at tblN p i0, mem_candidate_ids _ hb1 hb9, ?_⟩
      rw [hcond _ hb1 hb9, htb _ hbm, Bool.false_or]
      show (!(tbl_at tblN p (tbl_at tblN p i0) == 0)
        && !((mask_of (s.take level)).testBit
          (tbl_at tblN p (tbl_at tblN p i0)))) = false
      rw [show (tbl_at tblN p (tbl_at tblN p i0) == 0) = true
        from beq_iff_eq.mpr hbz]
      rfl

theorem loop_nonempty (M : List (List Int)) (fuel : Nat) :
    ∀ (cands : List Nat) (p level : Nat) (s : List Nat),
    (∃ i ∈ cands,
      (id_on_branch i s level || illegal_transition p i s level M) = false) →
    (add_subnodes_loop (fun i lvl t => add_subnodes fuel i lvl M t)
      p level M cands s).1 ≠ [] := by
  intro cands
  induction cands with
  | nil =>
    rintro p level s ⟨i, hi, _⟩
    exact absurd hi (List.not_mem_nil i)
  | cons i rest ih =>
    rintro p level s ⟨x, hx, hcx⟩
    by_cases hc : (id_on_branch i s level
        || illegal_transition p i s level M) = true
    · have hxr : x ∈ rest := by
        rcases List.mem_cons.mp hx with h | h
        · subst h
          rw [hcx] at hc
          exact absurd hc (by simp)
        · exact h
      rw [show (add_subnodes_loop (fun i lvl t => add_subnodes fuel i lvl M t)
          p level M (i :: rest) s)
          = add_subnodes_loop (fun i lvl t => add_subnodes fuel i lvl M t)
            p level M rest s from by
        simp only [add_subnodes_loop, hc, if_true]]
      exact ih p level s ⟨x, hxr, hcx⟩
    · have hc2 := eq_false_of_ne_true hc
      simp only [add_subnodes_loop, hc2, Bool.false_eq_true, if_false]
      exact List.cons_ne_nil _ _

theorem loop_member_shape (M : List (List Int)) (fuel : Nat) :
    ∀ (cands : List Nat) (p level : Nat) (s : List Nat),
    (∀ j, level ≤ j → s.getD j 0 = 0) →
    ∀ c ∈ (add_subnodes_loop (fun i lvl t => add_subnodes fuel i lvl M t)
        p level M cands s).1,
    ∃ i, i ∈ cands
      ∧ (id_on_branch i s level || illegal_transition p i s level M) = false
      ∧ c = TreeNode.node i
          (add_subnodes fuel i (level + 1) M (s.set level i)).1 := by
  intro cands
  induction cands with
  | nil =>
    intro p level s _ c hc
    simp [add_subnodes_loop] at hc
  | cons i rest ih =>
    intro p level s hz c hc
    by_cases hcond : (id_on_branch i s level
        || illegal_transition p i s level M) = true
    · rw [show (add_subnodes_loop (fun i lvl t => add_subnodes fuel i lvl M t)
          p level M (i :: rest) s)
          = add_subnodes_loop (fun i lvl t => add_subnodes fuel i lvl M t)
            p level M rest s from by
        simp only [add_subnodes_loop, hcond, if_true]] at hc
      obtain ⟨x, hx1, hx2, hx3⟩ := ih p level s hz c hc
      exact ⟨x, List.mem_cons_of_mem i hx1, hx2, hx3⟩
    · have hc2 := eq_false_of_ne_true hcond
      have hz1 : ∀ j, level + 1 ≤ j → ((s.set level i).getD j 0) = 0 := by
        intro j hj
        rw [getD_set_ne s level j i (by omega)]
        exact hz j (by omega)
      have hs3 : ((add_subnodes fuel i (level + 1) M (s.set level i)).2).set level 0
          = s := by
        rw [add_subnodes_state fuel i (level + 1) (s.set level i) hz1,
          List.set_set, set_getD_zero s level (hz level (Nat.le_refl level))]
      rw [show (add_subnodes_loop (fun i lvl t => add_subnodes fuel i lvl M t)
          p level M (i :: rest) s)
          = (TreeNode.node i
              (add_subnodes fuel i (level + 1) M (s.set level i)).1
            :: (add_subnodes_loop (fun i lvl t => add_subnodes fuel i lvl M t)
              p level M rest s).1,
            (add_subnodes_loop (fun i lvl t => add_subnodes fuel i lvl M t)
              p level M rest s).2) from by
        simp only [add_subnodes_loop, hc2, Bool.false_eq_true, if_false, hs3]] at hc
      rcases List.mem_cons.mp hc with h1 | h2
      · exact ⟨i, List.mem_cons_self i rest, hc2, h1⟩
      · obtain ⟨x, hx1, hx2, hx3⟩ := ih p level s hz c h2
        exact ⟨x, List.mem_cons_of_mem i hx1, hx2, hx3⟩

theorem getD_mem2 {α : Type} (d : α) :
    ∀ (l : List α) (n : Nat), n < l.length → l.getD n d ∈ l := by
  intro l
  induction l with
  | nil => intro n h; simp at h
  | cons x xs ih =>
    intro n h
    cases n with
    | zero => exact List.mem_cons_self x xs
    | succ n2 =>
      exact List.mem_cons_of_mem x (ih n2 (Nat.lt_of_succ_lt_succ h))

theorem walk_ok : ∀ (len : Nat) (fuel p level : Nat) (s : List Nat),
    fuel + level = 10 → p ≤ 9 → len + level ≤ 9 →
    s.length = 9 → (∀ j, level ≤ j → s.getD j 0 = 0) →
    (∀ x ∈ s.take level, 1 ≤ x ∧ x ≤ 9) → (s.take level).Nodup →
    ∀ ch : List Nat,
    (pattern_walk
      (TreeNode.node p (add_subnodes fuel p level pattern_block_matrix s).1)
      len ch).isSome = true := by
  intro len
  induction len with
  | zero => intro fuel p level s _ _ _ _ _ _ _ ch; rfl
  | succ n ihn =>
    intro fuel p level s hfuel hp hlen9 hslen hz h19 hnd ch
    obtain ⟨f, rfl⟩ : ∃ f, fuel = f + 1 := ⟨fuel - 1, by omega⟩
    have hne : (add_subnodes (f + 1) p level pattern_block_matrix s).1 ≠ [] := by
      show (add_subnodes_loop
        (fun i lvl t => add_subnodes f i lvl pattern_block_matrix t)
        p level pattern_block_matrix candidate_ids s).1 ≠ []
      exact loop_nonempty pattern_block_matrix f candidate_ids p level s
        (exists_accepted p level s hp (by omega) hslen h19 hnd)
    obtain ⟨c0, cs, hcs⟩ := List.exists_cons_of_ne_nil hne
    rw [hcs]
    have hcmem : (c0 :: cs).getD (ch.headD 0 % (c0 :: cs).length)
        (TreeNode.node 0 []) ∈ c0 :: cs :=
      getD_mem2 (TreeNode.node 0 []) (c0 :: cs) _
        (Nat.mod_lt _ (by simp))
    rw [← hcs] at hcmem
    have hshape := loop_member_shape pattern_block_matrix f candidate_ids
      p level s hz _ hcmem
    obtain ⟨i, himem, hicond, hceq⟩ := hshape
    have hi := cand_facts i himem
    have hid : id_on_branch i s level = false := by
      cases ha : id_on_branch i s level
      · rfl
      · rw [ha] at hicond; simp at hicond
    have hnotmem : i ∉ s.take level := by
      intro hmem
      rw [id_on_branch_elem] at hid
      rw [List.elem_eq_true_of_mem hmem] at hid
      simp at hid
    have htake : (s.set level i).take (level + 1) = s.take level ++ [i] :=
      take_set_succ s level i (by omega)
    have hz1 : ∀ j, level + 1 ≤ j → ((s.set level i).getD j 0) = 0 := by
      intro j hj
      rw [getD_set_ne s level j i (by omega)]
      exact hz j (by omega)
    have h19' : ∀ x ∈ (s.set level i).take (level + 1), 1 ≤ x ∧ x ≤ 9 := by
      rw [htake]
      intro x hx
      rcases List.mem_append.mp hx with hx1 | hx2
      · exact h19 x hx1
      · rw [List.mem_singleton.mp hx2]
        exact hi
    have hnd' : ((s.set level i).take (level + 1)).Nodup := by
      rw [htake, List.nodup_append]
      refine ⟨hnd, List.nodup_singleton i, ?_⟩
      intro a ha hb
      rw [List.mem_singleton.mp hb] at ha
      exact hnotmem ha
    have hrec := ihn f i (level + 1) (s.set level i) (by omega) hi.2 (by omega)
      (by rw [List.length_set]; exact hslen) hz1 h19' hnd' ch.tail
    rw [← hceq] at hrec
    show (match pattern_walk ((c0 :: cs).getD (ch.headD 0 % (c0 :: cs).length)
        (TreeNode.node 0 [])) n ch.tail with
      | none => none
      | some rest => some (((c0 :: cs).getD (ch.headD 0 % (c0 :: cs).length)
          (TreeNode.node 0 [])).id :: rest)).isSome = true
    rw [hcs] at hrec
    cases hw : pattern_walk ((c0 :: cs).getD (ch.headD 0 % (c0 :: cs).length)
        (TreeNode.node 0 [])) n ch.tail with
    | none =>
      rw [hw] at hrec
      exact absurd hrec (by simp)
    | some rest => rfl

theorem walk_full (len : Nat) (hlen : len ≤ 9) (ch : List Nat) :
    (pattern_walk (pattern_root pattern_block_matrix) len ch).isSome = true := by
  show (pattern_walk (TreeNode.node 0
    (add_subnodes 10 0 0 pattern_block_matrix node_ids0).1) len ch).isSome = true
  exact walk_ok len 10 0 0 node_ids0 rfl (by omega) (by omega)
    (by simp [node_ids0, MAX_POINTS]) (fun j _ => getD_replicate_zero 9 j)
    (by intro x hx; simp [node_ids0] at hx) (by simp [node_ids0]) ch

/-- Claim C10: in the tree built from the unrestricted blocking table the
random walk of `print_random_patterns` always succeeds: for every target
length up to 9 (hence in particular for lengths 4 through 9) and every
sequence of random values, each step finds a non-empty child list, so the
child choice `rand() % child_count` never divides by zero.  Universality
over the random values makes every node of depth below the target length
reachable, so this also states that every node at depth less than 9 has at
least one child. -/
theorem claim_C10 : ∀ len : Nat, len ≤ 9 → ∀ ch : List Nat,
    (pattern_walk (pattern_root pattern_block_matrix) len ch).isSome = true :=
  fun len hlen ch => walk_full len hlen ch

/-- Witness for claim C10 at length 4 with all-zero random values. -/
theorem claim_C10_witness :
    4 ≤ 9
    ∧ (pattern_walk (pattern_root pattern_block_matrix) 4 []).isSome = true :=
  ⟨by decide, claim_C10 4 (by decide) []⟩

/-- Claim C7: contrary to the claim, an invalid random-pattern length does
not skip generation inside `print_random_patterns`: the function prints its
diagnostic and then proceeds to emit one pattern per trial anyway.  For a
requested length below 4 every trial still produces a pattern (of that
invalid length).  (The command-line layer skips the call only when atoi
returned a value of at most 0, not for other invalid lengths.) -/
theorem claim_C7 (len : Nat) (hlen : len < 4) (rands : List (List Nat)) :
    (print_random_patterns (pattern_root pattern_block_matrix) len rands).1 = true
    ∧ (print_random_patterns (pattern_root pattern_block_matrix) len rands).2
        = rands.map (fun r => pattern_walk (pattern_root pattern_block_matrix) len r)
    ∧ ∀ r : List Nat,
        (pattern_walk (pattern_root pattern_block_matrix) len r).isSome = true := by
  refine ⟨?_, rfl, fun r => walk_full len (by omega) r⟩
  show random_patterns_warned len = true
  rw [random_patterns_warned, decide_eq_true hlen, Bool.true_or]

/-- Witness for claim C7: requested length 3 with one all-zero trial. -/
theorem claim_C7_witness :
    3 < 4
    ∧ ((print_random_patterns (pattern_root pattern_block_matrix) 3 [[0, 0, 0]]).1 = true
      ∧ (print_random_patterns (pattern_root pattern_block_matrix) 3 [[0, 0, 0]]).2
          = [[0, 0, 0]].map
            (fun r => pattern_walk (pattern_root pattern_block_matrix) 3 r)
      ∧ ∀ r : List Nat,
          (pattern_walk (pattern_root pattern_block_matrix) 3 r).isSome = true) :=
  ⟨by decide, claim_C7 3 (by decide) [[0, 0, 0]]⟩
mutual

theorem stf_spec : ∀ (t : TreeNode) (b : Nat), b ≠ 0 → ids_ok t = true →
    subtree_to_file t b = (batch_lines b t, b)
  | .node nid cs, b => by
    intro hb hids
    have hbeq : (b == 0) = false := beq_eq_false_iff_ne.mpr hb
    have hids2 : ids_ok_loop cs = true := hids
    rw [show subtree_to_file (TreeNode.node nid cs) b
        = (cs.map (fun c => b * 10 + c.id) ++ (stf_loop cs b).1,
          (stf_loop cs b).2) from by
      simp only [subtree_to_file, hbeq, Bool.false_eq_true, if_false]]
    rw [stf_loop_spec cs b hids2]
    rfl

theorem stf_loop_spec : ∀ (cs : List TreeNode) (b : Nat),
    ids_ok_loop cs = true → stf_loop cs b = (batch_lines_loop b cs, b)
  | [], b => by
    intro _
    rfl
  | c :: rest, b => by
    intro hids
    have h1 := (Bool.and_eq_true _ _).mp hids
    have h2 := (Bool.and_eq_true _ _).mp h1.1
    have hlo : 1 ≤ c.id := of_decide_eq_true ((Bool.and_eq_true _ _).mp h2.1).1
    have hhi : c.id ≤ 9 := of_decide_eq_true ((Bool.and_eq_true _ _).mp h2.1).2
    have hidc : ids_ok c = true := h2.2
    have hidr : ids_ok_loop rest = true := h1.2
    have hchild := stf_spec c (b * 10 + c.id) (by omega) hidc
    have hdiv : (b * 10 + c.id) / 10 = b := by omega
    rw [show stf_loop (c :: rest) b
        = ((subtree_to_file c (b * 10 + c.id)).1
            ++ (stf_loop rest ((subtree_to_file c (b * 10 + c.id)).2 / 10)).1,
          (stf_loop rest ((subtree_to_file c (b * 10 + c.id)).2 / 10)).2)
      from rfl]
    rw [hchild]
    show (batch_lines (b * 10 + c.id) c
        ++ (stf_loop rest ((b * 10 + c.id) / 10)).1,
      (stf_loop rest ((b * 10 + c.id) / 10)).2) = _
    rw [hdiv, stf_loop_spec rest b hidr]
    rfl

end

theorem perm_rotate {α : Type} (a x y : List α) :
    (a ++ (x ++ y)).Perm (x ++ (a ++ y)) := by
  have h1 : a ++ (x ++ y) = (a ++ x) ++ y := (List.append_assoc a x y).symm
  have h2 : (x ++ a) ++ y = x ++ (a ++ y) := List.append_assoc x a y
  rw [h1, ← h2]
  exact List.perm_append_comm.append_right y

mutual

theorem batch_perm_dfs : ∀ (t : TreeNode) (b : Nat),
    (batch_lines b t).Perm (dfs_lines b t)
  | .node nid cs, b => by
    show ((cs.map (fun c => b * 10 + c.id)) ++ batch_lines_loop b cs).Perm
      (dfs_lines_loop b cs)
    exact batch_loop_perm cs b

theorem batch_loop_perm : ∀ (cs : List TreeNode) (b : Nat),
    ((cs.map (fun c => b * 10 + c.id)) ++ batch_lines_loop b cs).Perm
      (dfs_lines_loop b cs)
  | [], b => by
    show ([] : List Nat).Perm []
    exact List.Perm.refl []
  | c :: rest, b => by
    show (((b * 10 + c.id) :: rest.map (fun c => b * 10 + c.id))
        ++ (batch_lines (b * 10 + c.id) c ++ batch_lines_loop b rest)).Perm
      ((b * 10 + c.id)
        :: (dfs_lines (b * 10 + c.id) c ++ dfs_lines_loop b rest))
    rw [List.cons_append]
    refine List.Perm.cons (b * 10 + c.id) ?_
    have hrot := perm_rotate (rest.map (fun c => b * 10 + c.id))
      (batch_lines (b * 10 + c.id) c) (batch_lines_loop b rest)
    exact hrot.trans
      (List.Perm.append (batch_perm_dfs c (b * 10 + c.id))
        (batch_loop_perm rest b))

end

set_option maxRecDepth 100000 in
/-- Claim C6, as stated, is false: the serializer does not emit the lines
in depth-first preorder.  For the {1,2,3}-restricted tree it prints all of
a node's children before descending, giving 1,2,3,12,123,... instead of
the depth-first 1,12,123,2,... -/
theorem claim_C6_counterexample :
    (subtree_to_file (pattern_root (fill_guess_matrix [49, 50, 51])) 0).1
      ≠ dfs_lines 0 (pattern_root (fill_guess_matrix [49, 50, 51])) := by
  decide

/-- Claim C6 (amended): for a root node (id 0, branch accumulator 0) whose
descendants all carry point ids in [1, 9], `subtree_to_file` emits exactly
one line per root-to-node path of length >= 1, each line the decimal
concatenation of the point ids along the path; the multiset of lines is
exactly that of the depth-first, ascending-child listing, but the order is
breadth-at-each-node: all children of a node are printed before its
children's subtrees are visited. -/
theorem claim_C6 (cs : List TreeNode) (h : ids_ok_loop cs = true) :
    (subtree_to_file (TreeNode.node 0 cs) 0).1
      = batch_lines 0 (TreeNode.node 0 cs)
    ∧ (batch_lines 0 (TreeNode.node 0 cs)).Perm
        (dfs_lines 0 (TreeNode.node 0 cs)) := by
  constructor
  · rw [show subtree_to_file (TreeNode.node 0 cs) 0
        = (cs.map (fun c => 0 * 10 + c.id) ++ (stf_loop cs 0).1,
          (stf_loop cs 0).2) from rfl]
    rw [stf_loop_spec cs 0 h]
    rfl
  · exact batch_perm_dfs (TreeNode.node 0 cs) 0

set_option maxRecDepth 100000 in
/-- Witness for claim C6: the {1,2,3}-restricted tree. -/
theorem claim_C6_witness :
    ids_ok_loop (pattern_root (fill_guess_matrix [49, 50, 51])).child_nodes = true
    ∧ ((subtree_to_file (TreeNode.node 0
          (pattern_root (fill_guess_matrix [49, 50, 51])).child_nodes) 0).1
        = batch_lines 0 (TreeNode.node 0
            (pattern_root (fill_guess_matrix [49, 50, 51])).child_nodes)
      ∧ (batch_lines 0 (TreeNode.node 0
            (pattern_root (fill_guess_matrix [49, 50, 51])).child_nodes)).Perm
          (dfs_lines 0 (TreeNode.node 0
            (pattern_root (fill_guess_matrix [49, 50, 51])).child_nodes))) :=
  ⟨by decide, claim_C6 _ (by decide)⟩
